import Mathlib

/-!
# medi-compare-ai: result-shape detection, chart-data derivation, best-model selection

A shallow embedding of the front-end logic in

* `frontend/src/components/ResultsDisplay.js` (`ResultsDisplay`, `SingleDiseaseResults`),
* `frontend/src/components/ComparisonChart.js` (`processData`, `algorithmColors`).

JavaScript values received from the API are parsed JSON; they are embedded as `JSValue`.
A thrown exception is `Except.error`; every exception these functions can raise is a
`TypeError` (reading a property of `undefined`/`null`, or calling a method the receiver
does not have).
-/

namespace MediCompare

/-! ## JavaScript values -/

/-- A JavaScript value as produced by `JSON.parse`, plus `undefined` (the value of a
missing property). `num` carries a finite number; `obj` lists the own properties in the
order `Object.keys` enumerates them. -/
inductive JSValue where
  | undefined
  | null
  | bool (b : Bool)
  | num (q : ℚ)
  | str (s : String)
  | arr (items : List JSValue)
  | obj (props : List (String × JSValue))

/-- The only exception kind raised by the embedded code. -/
inductive JSError where
  | TypeError
  deriving DecidableEq, Repr

/-- Result of evaluating JavaScript code that may throw. -/
abbrev JS (α : Type) := Except JSError α

/-- ToBoolean: `undefined`, `null`, `false`, `0` and `""` are falsy; all else is truthy. -/
def truthy : JSValue → Bool
  | .undefined => false
  | .null => false
  | .bool b => b
  | .num q => decide (q ≠ 0)
  | .str s => decide (s ≠ "")
  | .arr _ => true
  | .obj _ => true

/-- The test `typeof v === 'object'` (true for `null`, arrays and plain objects). -/
def typeofObject : JSValue → Bool
  | .null => true
  | .arr _ => true
  | .obj _ => true
  | _ => false

/-- First binding of key `k` in a property list. -/
def lookupProp (k : String) : List (String × JSValue) → Option JSValue
  | [] => none
  | (k', v) :: ps => if k' = k then some v else lookupProp k ps

/-- Value of a run of decimal digits, most significant first; `none` on a non-digit. -/
def digitsValue : List Char → Nat → Option Nat
  | [], acc => some acc
  | c :: cs, acc =>
    if c.isDigit then digitsValue cs (acc * 10 + (c.toNat - 48)) else none

/-- A property key is an array index when it is a canonical decimal numeral
(`"0"`, or digits without a leading zero). -/
def arrayIndex? (k : String) : Option Nat :=
  match k.data with
  | [] => none
  | ['0'] => some 0
  | '0' :: _ => none
  | cs => digitsValue cs 0

/-- Property read `v[k]` / `v.k`. Throws on `undefined` and `null`. Own properties only:
the program reads the fixed names `disease`, `results`, `disease_name`, `algorithm`,
`algorithm_name`, `metrics`, the metric names, keys obtained from `Object.keys`, index `0`
and `length`; none of them is an inherited (prototype) property. -/
def getProp (v : JSValue) (k : String) : JS JSValue :=
  match v with
  | .undefined => .error .TypeError
  | .null => .error .TypeError
  | .bool _ => .ok .undefined
  | .num _ => .ok .undefined
  | .str s =>
    match arrayIndex? k with
    | some i =>
      match s.data.get? i with
      | some c => .ok (.str (String.singleton c))
      | none => .ok .undefined
    | none => if k = "length" then .ok (.num s.data.length) else .ok .undefined
  | .arr xs =>
    match arrayIndex? k with
    | some i => .ok ((xs.get? i).getD .undefined)
    | none => if k = "length" then .ok (.num xs.length) else .ok .undefined
  | .obj ps => .ok ((lookupProp k ps).getD .undefined)

/-- The keys `Object.keys(v)` enumerates: the property names of an object, the indices of
an array. Throws on `undefined` and `null`. -/
def objectKeys : JSValue → JS (List String)
  | .undefined => .error .TypeError
  | .null => .error .TypeError
  | .bool _ => .ok []
  | .num _ => .ok []
  | .str s => .ok ((List.range s.data.length).map Nat.repr)
  | .arr xs => .ok ((List.range xs.length).map Nat.repr)
  | .obj ps => .ok (ps.map Prod.fst)

/-- Receiver of an array method call (`forEach`, `map`, `find`): anything but an array has
no such method, and the call throws. -/
def asArray : JSValue → JS (List JSValue)
  | .arr xs => .ok xs
  | _ => .error .TypeError

/-- Receiver of a string method call (`replace`): anything but a string has no such
method, and the call throws. -/
def asString : JSValue → JS String
  | .str s => .ok s
  | _ => .error .TypeError

/-- Strict equality `a === b` / SameValueZero on primitives. Arrays and objects compare by
reference identity, which this value embedding does not carry: they compare unequal here.
(In `processData` the operands are algorithm identifiers; a non-string identifier makes
`algorithm.replace` throw whatever the comparisons returned.) -/
def strictEquals : JSValue → JSValue → Bool
  | .undefined, .undefined => true
  | .null, .null => true
  | .bool a, .bool b => a == b
  | .num a, .num b => decide (a = b)
  | .str a, .str b => a == b
  | _, _ => false

/-- `xs.includes(v)`. -/
def includes (xs : List JSValue) (v : JSValue) : Bool :=
  xs.any (fun x => strictEquals x v)

/-- `a || b` on values. -/
def jsOr (a b : JSValue) : JSValue := if truthy a then a else b

/-! ## Array callbacks that may throw -/

/-- `xs.map(f)` for a callback that may throw. -/
def mapE {α β : Type} (f : α → JS β) : List α → JS (List β)
  | [] => .ok []
  | a :: l =>
    match f a with
    | .error e => .error e
    | .ok b =>
      match mapE f l with
      | .error e => .error e
      | .ok bs => .ok (b :: bs)

/-- `xs.map((x, index) => f x index)`, the first index being `i`. -/
def mapIdxE {α β : Type} (f : α → Nat → JS β) : Nat → List α → JS (List β)
  | _, [] => .ok []
  | i, a :: l =>
    match f a i with
    | .error e => .error e
    | .ok b =>
      match mapIdxE f (i + 1) l with
      | .error e => .error e
      | .ok bs => .ok (b :: bs)

/-- `xs.forEach(x => acc = f acc x)` with an accumulator. -/
def foldlE {α σ : Type} (f : σ → α → JS σ) : σ → List α → JS σ
  | s, [] => .ok s
  | s, a :: l =>
    match f s a with
    | .error e => .error e
    | .ok s' => foldlE f s' l

/-- `xs.find(p)`: the first element satisfying `p`, else `undefined`. -/
def findE (p : JSValue → JS Bool) : List JSValue → JS JSValue
  | [] => .ok .undefined
  | a :: l =>
    match p a with
    | .error e => .error e
    | .ok true => .ok a
    | .ok false => findE p l

/-! ## Strings -/

/-- `s.replace(pat, rep)` with a string pattern: only the first occurrence is replaced. -/
def replaceFirstChars (pat rep : List Char) : List Char → List Char
  | [] => if pat = [] then rep else []
  | c :: cs =>
    if pat.isPrefixOf (c :: cs) then rep ++ (c :: cs).drop pat.length
    else c :: replaceFirstChars pat rep cs

/-- `s.replace(pat, rep)` on strings. -/
def replaceFirst (s pat rep : String) : String :=
  String.mk (replaceFirstChars pat.data rep.data s.data)

/-- `s.toUpperCase()`; exact on ASCII (characters outside ASCII are left unchanged). -/
def toUpperCase (s : String) : String := String.mk (s.data.map Char.toUpper)

/-- The display transform `s.replace('_', ' ').toUpperCase()`. -/
def formatLabel (s : String) : String := toUpperCase (replaceFirst s "_" " ")

/-! ## ResultsDisplay.js -/

/-- What `ResultsDisplay` returns: the list of `SingleDiseaseResults` elements of the
multi-disease branch (props `disease`, `results`, in `Object.keys` order), the single
element of the single-disease branch, or the "No results available" box. -/
inductive ResultsView where
  | multi (sections : List (JSValue × JSValue))
  | single (disease : JSValue) (results : JSValue)
  | noResults

/-- Props of the element built for `diseaseKey` at ResultsDisplay.js:159-163. -/
def diseaseSection (results : JSValue) (diseaseKey : String) : JS (JSValue × JSValue) :=
  match getProp results diseaseKey with
  | .error e => .error e
  | .ok entry =>
    match getProp entry "disease_name" with
    | .error e => .error e
    | .ok name =>
      match getProp entry "results" with
      | .error e => .error e
      | .ok rs => .ok (jsOr name (.str diseaseKey), rs)

/-- The condition of the multi-disease branch of `ResultsDisplay` (line 154):
`results && typeof results === 'object' && !results.disease && !results.results`. -/
def isMultiDisease (results : JSValue) : JS Bool :=
  if truthy results && typeofObject results then
    match getProp results "disease" with
    | .error e => .error e
    | .ok d =>
      if truthy d then .ok false
      else
        match getProp results "results" with
        | .error e => .error e
        | .ok r => .ok (!truthy r)
  else .ok false

/-- The condition of the single-disease branch (ResultsDisplay.js:167,
ComparisonChart.js:90): `results && results.results`. -/
def isSingleDisease (results : JSValue) : JS Bool :=
  if truthy results then
    match getProp results "results" with
    | .error e => .error e
    | .ok r => .ok (truthy r)
  else .ok false

/-- The body of `ResultsDisplay` (ResultsDisplay.js:153-183). -/
def ResultsDisplay (results : JSValue) : JS ResultsView :=
  match isMultiDisease results with
  | .error e => .error e
  | .ok true =>
    match objectKeys results with
    | .error e => .error e
    | .ok keys =>
      match mapE (diseaseSection results) keys with
      | .error e => .error e
      | .ok sections => .ok (.multi sections)
  | .ok false =>
    match isSingleDisease results with
    | .error e => .error e
    | .ok true =>
      match getProp results "disease_name" with
      | .error e => .error e
      | .ok name =>
        match getProp results "results" with
        | .error e => .error e
        | .ok rs => .ok (.single name rs)
    | .ok false => .ok .noResults

/-! ### Best-model selection (ResultsDisplay.js:58-63) -/

/-- The subtraction `x - y` of the sort comparator. For two numbers, their difference (the
caller uses only its sign, and a rounded floating-point difference of finite numbers has
the sign of the exact one). `none` is NaN, the result when an operand is `undefined`.
Operands of other types, which JavaScript would coerce, are outside the modelled
fragment and also give `none`; the results about the sort assume number operands. -/
def numberSub : JSValue → JSValue → Option ℚ
  | .num a, .num b => some (a - b)
  | _, _ => none

/-- The comparator `(a, b) => b.metrics.f1_score - a.metrics.f1_score`. -/
def compareF1 (a b : JSValue) : JS (Option ℚ) :=
  match getProp b "metrics" with
  | .error e => .error e
  | .ok bm =>
    match getProp bm "f1_score" with
    | .error e => .error e
    | .ok bf =>
      match getProp a "metrics" with
      | .error e => .error e
      | .ok am =>
        match getProp am "f1_score" with
        | .error e => .error e
        | .ok af => .ok (numberSub bf af)

/-- Whether `x` must come after `y`: SortCompare of `Array.prototype.sort`. `undefined`
elements sort last without a comparator call; a NaN comparator result counts as `+0`. -/
def sortsAfter (cmp : JSValue → JSValue → JS (Option ℚ)) (x y : JSValue) : JS Bool :=
  match x, y with
  | .undefined, .undefined => .ok false
  | .undefined, _ => .ok true
  | _, .undefined => .ok false
  | _, _ =>
    match cmp x y with
    | .error e => .error e
    | .ok (some v) => .ok (decide (0 < v))
    | .ok none => .ok false

/-- Insert `a`, which preceded every element of the sorted list in the input, at the
leftmost admissible place: before the first element it does not have to come after. -/
def sortInsert (cmp : JSValue → JSValue → JS (Option ℚ)) (a : JSValue) :
    List JSValue → JS (List JSValue)
  | [] => .ok [a]
  | b :: l =>
    match sortsAfter cmp a b with
    | .error e => .error e
    | .ok false => .ok (a :: b :: l)
    | .ok true =>
      match sortInsert cmp a l with
      | .error e => .error e
      | .ok r => .ok (b :: r)

/-- `xs.sort(cmp)`: `Array.prototype.sort` is a stable sort (ECMAScript 2019), so for a
consistent comparator its result is the unique stable arrangement; it is computed here by
stable insertion. A comparator exception aborts the sort. -/
def arraySort (cmp : JSValue → JSValue → JS (Option ℚ)) : List JSValue → JS (List JSValue)
  | [] => .ok []
  | a :: l =>
    match arraySort cmp l with
    | .error e => .error e
    | .ok s => sortInsert cmp a s

/-- ResultsDisplay.js:62:
`[...results].sort((a, b) => b.metrics.f1_score - a.metrics.f1_score)[0]`. -/
def bestModel (results : List JSValue) : JS JSValue :=
  match arraySort compareF1 results with
  | .error e => .error e
  | .ok sorted => .ok (sorted.head?.getD .undefined)

/-- ResultsDisplay.js:58-62: `results.length > 0 && (...bestModel...)`. `none` is the
value `false` of the guard, for which React renders nothing; `some m` is the selected
model `m`, from which the detail box of lines 63-146 is then built (the property reads of
that box are not part of this definition). -/
def bestModelSection (results : List JSValue) : JS (Option JSValue) :=
  if results.length > 0 then
    match bestModel results with
    | .error e => .error e
    | .ok m => .ok (some m)
  else .ok none

/-! ## ComparisonChart.js -/

/-- The chart style held in the `chartType` state (`'bar'` or `'radar'`). -/
inductive ChartType where
  | bar
  | radar
  deriving DecidableEq, Repr

/-- The metric held in the `metric` state: the values offered by the metric selector. -/
inductive MetricName where
  | accuracy
  | precision
  | recall
  | f1_score
  | roc_auc
  deriving DecidableEq, Repr

/-- The string value of a metric selection. -/
def MetricName.key : MetricName → String
  | .accuracy => "accuracy"
  | .precision => "precision"
  | .recall => "recall"
  | .f1_score => "f1_score"
  | .roc_auc => "roc_auc"

/-- The palette `algorithmColors` (ComparisonChart.js:38-46). -/
def algorithmColors : List String :=
  [ "rgba(54, 162, 235, 0.7)",
    "rgba(255, 99, 132, 0.7)",
    "rgba(75, 192, 192, 0.7)",
    "rgba(255, 159, 64, 0.7)",
    "rgba(153, 102, 255, 0.7)",
    "rgba(255, 205, 86, 0.7)",
    "rgba(201, 203, 207, 0.7)" ]

/-- `algorithmColors[index % algorithmColors.length]`. -/
def colorAt (index : Nat) : String :=
  algorithmColors.get ⟨index % algorithmColors.length, Nat.mod_lt _ (by decide)⟩

/-- One entry of `datasets` in the chart data. A property the source does not set reads
as `undefined`. -/
structure ChartDataset where
  label : JSValue
  data : List JSValue
  backgroundColor : JSValue
  borderColor : JSValue
  borderWidth : Nat
  pointBackgroundColor : JSValue := .undefined
  pointBorderColor : JSValue := .undefined
  pointHoverBackgroundColor : JSValue := .undefined
  pointHoverBorderColor : JSValue := .undefined

/-- The object handed to the chart library. -/
structure ChartData where
  labels : List JSValue
  datasets : List ChartDataset

/-- ComparisonChart.js:60-64, one `forEach` step: push `result.algorithm` unless included. -/
def collectStep (allAlgorithms : List JSValue) (result : JSValue) : JS (List JSValue) :=
  match getProp result "algorithm" with
  | .error e => .error e
  | .ok a => if includes allAlgorithms a then .ok allAlgorithms else .ok (allAlgorithms ++ [a])

/-- `results[disease].results`, as the receiver of an array method. -/
def diseaseResults (results : JSValue) (disease : String) : JS (List JSValue) :=
  match getProp results disease with
  | .error e => .error e
  | .ok entry =>
    match getProp entry "results" with
    | .error e => .error e
    | .ok rs => asArray rs

/-- ComparisonChart.js:59-65: collect all unique algorithms. -/
def collectAlgorithms (results : JSValue) (diseases : List String) : JS (List JSValue) :=
  foldlE (fun acc disease =>
    match diseaseResults results disease with
    | .error e => .error e
    | .ok rs => foldlE collectStep acc rs) [] diseases

/-- ComparisonChart.js:70-71: the slot of `algorithm` for `disease`. -/
def diseaseSlot (results : JSValue) (metric : MetricName) (algorithm : JSValue)
    (disease : String) : JS JSValue :=
  match diseaseResults results disease with
  | .error e => .error e
  | .ok rs =>
    match findE (fun result =>
        match getProp result "algorithm" with
        | .error e => .error e
        | .ok a => .ok (strictEquals a algorithm)) rs with
    | .error e => .error e
    | .ok algorithmResult =>
      if truthy algorithmResult then
        match getProp algorithmResult "metrics" with
        | .error e => .error e
        | .ok ms => getProp ms metric.key
      else .ok (.num 0)

/-- ComparisonChart.js:68-81: the series of `algorithm`, at position `index`. -/
def algorithmSeries (results : JSValue) (diseases : List String) (metric : MetricName)
    (algorithm : JSValue) (index : Nat) : JS ChartDataset :=
  match mapE (diseaseSlot results metric algorithm) diseases with
  | .error e => .error e
  | .ok data =>
    match asString algorithm with
    | .error e => .error e
    | .ok name =>
      .ok { label := .str (formatLabel name)
            data := data
            backgroundColor := .str (colorAt index)
            borderColor := .str (replaceFirst (colorAt index) "0.7" "1")
            borderWidth := 1 }

/-- ComparisonChart.js:85: the label of `disease`. -/
def diseaseLabel (results : JSValue) (disease : String) : JS JSValue :=
  match getProp results disease with
  | .error e => .error e
  | .ok entry =>
    match getProp entry "disease_name" with
    | .error e => .error e
    | .ok name => .ok (jsOr name (.str disease))

/-- The multi-disease branch of `processData` (ComparisonChart.js:55-87). It does not
read `chartType`. -/
def multiDiseaseChart (results : JSValue) (metric : MetricName) : JS (Option ChartData) :=
  match objectKeys results with
  | .error e => .error e
  | .ok diseases =>
    match collectAlgorithms results diseases with
    | .error e => .error e
    | .ok allAlgorithms =>
      match mapIdxE (algorithmSeries results diseases metric) 0 allAlgorithms with
      | .error e => .error e
      | .ok datasets =>
        match mapE (diseaseLabel results) diseases with
        | .error e => .error e
        | .ok labels => .ok (some { labels := labels, datasets := datasets })

/-- ComparisonChart.js:91-94: the metric list of the single-disease branch. -/
def singleMetrics (rs : JSValue) : JS (List String) :=
  match getProp rs "0" with
  | .error e => .error e
  | .ok first =>
    match getProp first "metrics" with
    | .error e => .error e
    | .ok ms =>
      match getProp ms "roc_auc" with
      | .error e => .error e
      | .ok roc =>
        if truthy roc then .ok ["accuracy", "precision", "recall", "f1_score", "roc_auc"]
        else .ok ["accuracy", "precision", "recall", "f1_score"]

/-- ComparisonChart.js:98-110: the radar series of `result`, at position `index`. -/
def radarSeries (metrics : List String) (result : JSValue) (index : Nat) : JS ChartDataset :=
  match getProp result "algorithm_name" with
  | .error e => .error e
  | .ok name =>
    match mapE (fun m =>
        match getProp result "metrics" with
        | .error e => .error e
        | .ok ms =>
          match getProp ms m with
          | .error e => .error e
          | .ok v => .ok (jsOr v (.num 0))) metrics with
    | .error e => .error e
    | .ok data =>
      .ok { label := name
            data := data
            backgroundColor := .str (replaceFirst (colorAt index) "0.7" "0.2")
            borderColor := .str (replaceFirst (colorAt index) "0.7" "1")
            borderWidth := 2
            pointBackgroundColor := .str (replaceFirst (colorAt index) "0.7" "1")
            pointBorderColor := .str "#fff"
            pointHoverBackgroundColor := .str "#fff"
            pointHoverBorderColor := .str (replaceFirst (colorAt index) "0.7" "1") }

/-- ComparisonChart.js:122: `result.metrics[metric]`. -/
def metricValue (metric : MetricName) (result : JSValue) : JS JSValue :=
  match getProp result "metrics" with
  | .error e => .error e
  | .ok ms => getProp ms metric.key

/-- The single-disease branch of `processData` (ComparisonChart.js:91-128); `rs` is
`results.results`. -/
def singleDiseaseChart (results : JSValue) (chartType : ChartType) (metric : MetricName) :
    JS (Option ChartData) :=
  match getProp results "results" with
  | .error e => .error e
  | .ok rs =>
    match singleMetrics rs with
    | .error e => .error e
    | .ok metrics =>
      match asArray rs with
      | .error e => .error e
      | .ok items =>
        if chartType = .radar then
          match mapIdxE (radarSeries metrics) 0 items with
          | .error e => .error e
          | .ok datasets =>
            .ok (some { labels := metrics.map (fun m => .str (formatLabel m))
                        datasets := datasets })
        else
          match mapE (fun result => getProp result "algorithm_name") items with
          | .error e => .error e
          | .ok labels =>
            match mapE (metricValue metric) items with
            | .error e => .error e
            | .ok data =>
              .ok (some
                { labels := labels
                  datasets :=
                    [ { label := .str (formatLabel metric.key)
                        data := data
                        backgroundColor :=
                          .arr ((List.range items.length).map (fun index => .str (colorAt index)))
                        borderColor :=
                          .arr ((List.range items.length).map
                            (fun index => .str (replaceFirst (colorAt index) "0.7" "1")))
                        borderWidth := 1 } ] })

/-- The condition of the multi-disease branch of `processData` (ComparisonChart.js:54):
`typeof results === 'object' && !results.disease && !results.results`. -/
def isMultiDiseaseChart (results : JSValue) : JS Bool :=
  if typeofObject results then
    match getProp results "disease" with
    | .error e => .error e
    | .ok d =>
      if truthy d then .ok false
      else
        match getProp results "results" with
        | .error e => .error e
        | .ok r => .ok (!truthy r)
  else .ok false

/-- The function `processData` (ComparisonChart.js:52-132); `none` is `null`. -/
def processData (results : JSValue) (chartType : ChartType) (metric : MetricName) :
    JS (Option ChartData) :=
  match isMultiDiseaseChart results with
  | .error e => .error e
  | .ok true => multiDiseaseChart results metric
  | .ok false =>
    match isSingleDisease results with
    | .error e => .error e
    | .ok true => singleDiseaseChart results chartType metric
    | .ok false => .ok none

/-- The effect at ComparisonChart.js:49-135: with falsy `results` the chart data keeps its
previous value `prev`; otherwise it becomes `processData()`. -/
def chartDataEffect (prev : Option ChartData) (results : JSValue) (chartType : ChartType)
    (metric : MetricName) : JS (Option ChartData) :=
  if truthy results then processData results chartType metric else .ok prev

/-! ## services/api.js -/

/-- An HTTP call made through axios; the path is relative to `API_URL`. -/
inductive HttpRequest where
  | get (path : String)
  | post (path : String) (body : JSValue)

/-- Why an asynchronous call rejects: an exception thrown before the request was made, or
a failed request (network failure or a status outside 2xx). -/
inductive Rejection where
  | thrown (e : JSError)
  | requestFailed

/-- The remote service as the client sees it: for each request either `response.data` or
a failure (`none`). -/
abbrev Transport := HttpRequest → Option JSValue

/-- An asynchronous call once settled: the requests it issued, in order, and the value it
resolved with or the reason it rejected with. -/
structure AsyncResult where
  requests : List HttpRequest
  outcome : Except Rejection JSValue

/-- The default parameter `options = {}`: it applies when the argument is `undefined`. -/
def defaultOptions : JSValue → JSValue
  | .undefined => .obj []
  | o => o

/-- The request body of `trainModels` (api.js:30-35). -/
def trainBody (disease algorithms options : JSValue) : JS JSValue :=
  match getProp (defaultOptions options) "testSize" with
  | .error e => .error e
  | .ok testSize =>
    match getProp (defaultOptions options) "randomState" with
    | .error e => .error e
    | .ok randomState =>
      .ok (.obj [ ("disease", disease),
                  ("algorithms", algorithms),
                  ("test_size", jsOr testSize (.num 0.2)),
                  ("random_state", jsOr randomState (.num 42)) ])

/-- The request body of `compareModels` (api.js:46-51). -/
def compareBody (diseases algorithms options : JSValue) : JS JSValue :=
  match getProp (defaultOptions options) "testSize" with
  | .error e => .error e
  | .ok testSize =>
    match getProp (defaultOptions options) "randomState" with
    | .error e => .error e
    | .ok randomState =>
      .ok (.obj [ ("diseases", diseases),
                  ("algorithms", algorithms),
                  ("test_size", jsOr testSize (.num 0.2)),
                  ("random_state", jsOr randomState (.num 42)) ])

/-- The body of the `try` block, `axios.post(path, body)` then `return response.data`; the
`catch` block logs and rethrows, so a rejection is passed on unchanged. The body is
evaluated before the call: if that throws, no request is issued. -/
def postJson (transport : Transport) (path : String) (body : JS JSValue) : AsyncResult :=
  match body with
  | .error e => { requests := [], outcome := .error (.thrown e) }
  | .ok b =>
    { requests := [.post path b]
      outcome :=
        match transport (.post path b) with
        | some data => .ok data
        | none => .error .requestFailed }

/-- The function `trainModels` (api.js:28-41). -/
def trainModels (transport : Transport) (disease algorithms options : JSValue) : AsyncResult :=
  postJson transport "/train" (trainBody disease algorithms options)

/-- The function `compareModels` (api.js:44-57). -/
def compareModels (transport : Transport) (diseases algorithms options : JSValue) :
    AsyncResult :=
  postJson transport "/compare" (compareBody diseases algorithms options)

/-! ## App.js -/

/-- The state of `App` (App.js:12-18); `error = none` is `null`. -/
structure AppState where
  diseases : JSValue
  algorithms : JSValue
  selectedDiseases : List JSValue
  selectedAlgorithms : List JSValue
  results : JSValue
  loading : Bool
  error : Option String

/-- An observable step of an event handler: a state setter call or an HTTP request. -/
inductive Effect where
  | setLoading (b : Bool)
  | setError (message : Option String)
  | setResults (results : JSValue)
  | http (request : HttpRequest)

/-- The state after one step. -/
def applyEffect (s : AppState) : Effect → AppState
  | .setLoading b => { s with loading := b }
  | .setError message => { s with error := message }
  | .setResults results => { s with results := results }
  | .http _ => s

/-- The state after a sequence of steps. -/
def applyEffects (s : AppState) (effects : List Effect) : AppState :=
  effects.foldl applyEffect s

/-- The handler `handleCompare` (App.js:57-85), run to completion in state `s`: the steps it
performs, in order (`console.error` is not recorded). -/
def handleCompare (transport : Transport) (s : AppState) : List Effect :=
  if s.selectedDiseases.length = 0 ∨ s.selectedAlgorithms.length = 0 then
    [.setError (some "Please select at least one disease and one algorithm")]
  else
    let call :=
      if s.selectedDiseases.length = 1 then
        trainModels transport (s.selectedDiseases.head?.getD .undefined)
          (.arr s.selectedAlgorithms) .undefined
      else
        compareModels transport (.arr s.selectedDiseases) (.arr s.selectedAlgorithms)
          .undefined
    [.setLoading true, .setError none, .setResults .null]
      ++ call.requests.map Effect.http
      ++ (match call.outcome with
          | .ok resultsData => [.setResults resultsData]
          | .error _ =>
            [.setError (some "An error occurred while comparing models. Please try again.")])
      ++ [.setLoading false]

/-- The state of `App` before the initial data has arrived. -/
def initialState : AppState :=
  { diseases := .arr [], algorithms := .arr [], selectedDiseases := [],
    selectedAlgorithms := [], results := .null, loading := false, error := none }

/-! ## Example responses -/

/-- The Random Forest result of the single-dataset example of the specification. -/
def diabetesResult : JSValue :=
  .obj [ ("algorithm", .str "rf"),
         ("algorithm_name", .str "Random Forest"),
         ("metrics", .obj [
           ("accuracy", .num 0.9), ("precision", .num 0.85),
           ("recall", .num 0.88), ("f1_score", .num 0.86),
           ("confusion_matrix", .obj [
             ("true_positive", .num 50), ("true_negative", .num 40),
             ("false_positive", .num 5), ("false_negative", .num 5) ]) ]) ]

/-- The result list of the single-dataset example of the specification. -/
def diabetesResults : List JSValue := [diabetesResult]

/-- The property list of the single-dataset example of the specification. -/
def diabetesProps : List (String × JSValue) :=
  [ ("disease_name", .str "Diabetes"), ("results", .arr diabetesResults) ]

/-- The single-dataset example of the specification (Diabetes, one Random Forest result). -/
def diabetesResponse : JSValue := .obj diabetesProps

/-- A multi-dataset response: the object whose keys are the dataset identifiers, each bound
to a dataset-result object with the given properties. -/
def mappingResponse (entries : List (String × List (String × JSValue))) : JSValue :=
  .obj (entries.map (fun e => (e.1, .obj e.2)))

/-- The value a property read gives on an object with properties `ps`. -/
def field (ps : List (String × JSValue)) (k : String) : JSValue :=
  (lookupProp k ps).getD .undefined

/-- The operator `a ?? b` of the specification text: `b` when `a` is `null` or
`undefined`, else `a`. -/
def nullishOr : JSValue → JSValue → JSValue
  | .undefined, b => b
  | .null, b => b
  | a, _ => a

/-- A mapping with a dataset identifier `disease`. -/
def diseaseKeyedResponse : JSValue :=
  mappingResponse [("disease", [("disease_name", .str "Skin disease"), ("results", .arr [])])]

/-- A mapping whose only dataset has the empty string as `disease_name`. -/
def emptyNameResponse : JSValue :=
  mappingResponse [("diabetes", [("disease_name", .str ""), ("results", .arr [])])]

/-- An algorithm result with the given identifier, display name and metric values. -/
def algorithmResult (algorithm name : String) (acc prec rcl f1 : ℚ) : JSValue :=
  .obj [ ("algorithm", .str algorithm), ("algorithm_name", .str name),
         ("metrics", .obj [ ("accuracy", .num acc), ("precision", .num prec),
                            ("recall", .num rcl), ("f1_score", .num f1) ]) ]

/-- The result list of dataset A of the specification example: algorithms `rf`, `lr`. -/
def datasetAResults : List JSValue :=
  [ algorithmResult "rf" "Random Forest" 0.9 0.85 0.88 0.86,
    algorithmResult "lr" "Logistic Regression" 0.8 0.75 0.78 0.76 ]

/-- The result list of dataset B of the specification example: algorithm `lr` only. -/
def datasetBResults : List JSValue :=
  [ algorithmResult "lr" "Logistic Regression" 0.7 0.65 0.68 0.66 ]

/-- Two datasets: A (`diabetes`, named) with `[rf, lr]` and B (`heart`, unnamed) with
`[lr]`. -/
def twoDatasetEntries : List (String × List (String × JSValue)) :=
  [ ("diabetes", [("disease_name", .str "Diabetes"), ("results", .arr datasetAResults)]),
    ("heart", [("results", .arr datasetBResults)]) ]

/-- A mapping one of whose values has no `results` array. -/
def missingResultsResponse : JSValue :=
  mappingResponse [ ("diabetes", [("disease_name", .str "Diabetes")]),
                    ("heart", [("results", .arr datasetBResults)]) ]

/-- An object with a `disease` key but no `results`. -/
def diseaseOnlyProps : List (String × JSValue) := [("disease", .str "diabetes")]

/-- The number `r.metrics.f1_score` of an algorithm result, when `r` has a `metrics`
property holding a number under `f1_score`. -/
def f1Score? (r : JSValue) : Option ℚ :=
  match getProp r "metrics" with
  | .ok ms =>
    match getProp ms "f1_score" with
    | .ok (.num q) => some q
    | _ => none
  | .error _ => none

/-- An algorithm result tagged `name` whose only metric is `f1_score = f1`. -/
def scored (name : String) (f1 : ℚ) : JSValue :=
  .obj [("algorithm_name", .str name), ("metrics", .obj [("f1_score", .num f1)])]

/-- The tie example of the specification: f1 scores `[0.8, 0.9, 0.9]`. -/
def tieExample : List JSValue := [scored "first" 0.8, scored "second" 0.9, scored "third" 0.9]

/-! ## Reading well-formed multi-dataset responses -/

/-- The algorithm identifier of a result, when it is a string. -/
def resultAlgorithm? (r : JSValue) : Option String :=
  match getProp r "algorithm" with
  | .ok (.str a) => some a
  | _ => none

/-- An algorithm result: a string `algorithm` identifier and a `metrics` object. -/
def wellFormedResult (r : JSValue) : Bool :=
  match getProp r "algorithm", getProp r "metrics" with
  | .ok (.str _), .ok (.obj _) => true
  | _, _ => false

/-- The `results` array of a dataset result with properties `ps`. -/
def resultsOf (ps : List (String × JSValue)) : List JSValue :=
  match field ps "results" with
  | .arr rs => rs
  | _ => []

/-- A dataset result: its `results` is an array of algorithm results. -/
def wellFormedDataset (ps : List (String × JSValue)) : Bool :=
  match field ps "results" with
  | .arr rs => rs.all wellFormedResult
  | _ => false

/-- All algorithm identifiers of a multi-dataset response, datasets scanned in key order
and results in sequence order. -/
def algorithmIds (entries : List (String × List (String × JSValue))) : List String :=
  entries.flatMap (fun e => (resultsOf e.2).filterMap resultAlgorithm?)

/-- The elements of a list, each kept at its first occurrence only. -/
def firstOccurrences : List String → List String
  | [] => []
  | a :: l => a :: (firstOccurrences l).filter (fun x => decide (x ≠ a))

/-- The loop step "push unless included" on identifiers. -/
def pushNew (acc : List String) (a : String) : List String :=
  if a ∈ acc then acc else acc ++ [a]

/-- The value `result.metrics[metric]` (`undefined` if the read is impossible). -/
def metricOf (metric : MetricName) (r : JSValue) : JSValue :=
  match metricValue metric r with
  | .ok v => v
  | .error _ => .undefined

/-- The slot of algorithm `a` for a dataset with results `rs`: the chosen metric of the
first result whose identifier is `a`, or `0` when there is none. -/
def slotValue (metric : MetricName) (a : String) (rs : List JSValue) : JSValue :=
  match rs.find? (fun r => resultAlgorithm? r == some a) with
  | some r => metricOf metric r
  | none => .num 0

/-- The series of algorithm `a` at position `index` in multi-dataset mode. -/
def seriesOf (entries : List (String × List (String × JSValue))) (metric : MetricName)
    (a : String) (index : Nat) : ChartDataset :=
  { label := .str (formatLabel a)
    data := entries.map (fun e => slotValue metric a (resultsOf e.2))
    backgroundColor := .str (colorAt index)
    borderColor := .str (replaceFirst (colorAt index) "0.7" "1")
    borderWidth := 1 }

/-- `l.map((a, index) => g a index)` for a callback that cannot throw, first index `i`. -/
def mapIdxFrom {α β : Type} (g : α → Nat → β) : Nat → List α → List β
  | _, [] => []
  | i, a :: l => g a i :: mapIdxFrom g (i + 1) l

/-! ## Reading well-formed single-dataset responses -/

/-- The value `result.algorithm_name` (`undefined` if the read is impossible). -/
def algorithmNameOf (r : JSValue) : JSValue :=
  match getProp r "algorithm_name" with
  | .ok v => v
  | .error _ => .undefined

/-- The value `result.metrics[m]` (`undefined` if the read is impossible). -/
def metricField (r : JSValue) (m : String) : JSValue :=
  match getProp r "metrics" with
  | .ok ms =>
    match getProp ms m with
    | .ok v => v
    | .error _ => .undefined
  | .error _ => .undefined

/-- The axis metrics of the radar chart, given the first result of the dataset. -/
def radarMetrics (first : JSValue) : List String :=
  if truthy (metricField first "roc_auc") then
    ["accuracy", "precision", "recall", "f1_score", "roc_auc"]
  else ["accuracy", "precision", "recall", "f1_score"]

/-- The radar series of result `r` at position `index` over the axis metrics. -/
def radarSeriesOf (metrics : List String) (r : JSValue) (index : Nat) : ChartDataset :=
  { label := algorithmNameOf r
    data := metrics.map (fun m => jsOr (metricField r m) (.num 0))
    backgroundColor := .str (replaceFirst (colorAt index) "0.7" "0.2")
    borderColor := .str (replaceFirst (colorAt index) "0.7" "1")
    borderWidth := 2
    pointBackgroundColor := .str (replaceFirst (colorAt index) "0.7" "1")
    pointBorderColor := .str "#fff"
    pointHoverBackgroundColor := .str "#fff"
    pointHoverBorderColor := .str (replaceFirst (colorAt index) "0.7" "1") }

/-- The single series of the bar chart of a single dataset with results `rs`. -/
def barSeriesOf (metric : MetricName) (rs : List JSValue) : ChartDataset :=
  { label := .str (formatLabel metric.key)
    data := rs.map (metricOf metric)
    backgroundColor := .arr ((List.range rs.length).map (fun index => .str (colorAt index)))
    borderColor := .arr ((List.range rs.length).map
      (fun index => .str (replaceFirst (colorAt index) "0.7" "1")))
    borderWidth := 1 }

/-- An algorithm result with the given metrics object. -/
def resultWithMetrics (algorithm name : String) (ms : List (String × JSValue)) : JSValue :=
  .obj [ ("algorithm", .str algorithm), ("algorithm_name", .str name), ("metrics", .obj ms) ]

/-- A result that defines `roc_auc`. -/
def rocDefinedResult : JSValue :=
  resultWithMetrics "rf" "Random Forest"
    [ ("accuracy", .num 0.9), ("precision", .num 0.85), ("recall", .num 0.88),
      ("f1_score", .num 0.86), ("roc_auc", .num 0.95) ]

/-- A result that does not define `roc_auc`. -/
def rocMissingResult : JSValue :=
  resultWithMetrics "svm" "SVM"
    [ ("accuracy", .num 0.8), ("precision", .num 0.75), ("recall", .num 0.78),
      ("f1_score", .num 0.76) ]

/-- A single-dataset response whose first result defines `roc_auc` and whose second
result does not. -/
def mixedRocProps : List (String × JSValue) :=
  [ ("disease_name", .str "Diabetes"), ("results", .arr [rocDefinedResult, rocMissingResult]) ]

/-! ## Label formatting as the specification words it -/

/-- Every underscore of `s` replaced by a space. -/
def replaceUnderscores (s : String) : String :=
  String.mk (s.data.map (fun c => if c = '_' then ' ' else c))

/-- The label of the specification text: every underscore replaced by a space, then
upper-cased. -/
def specLabel (s : String) : String := toUpperCase (replaceUnderscores s)

/-- A two-dataset response whose algorithm identifier has two underscores. -/
def underscoreEntries : List (String × List (String × JSValue)) :=
  [ ("diabetes", [ ("disease_name", .str "Diabetes"),
      ("results", .arr [algorithmResult "k_nearest_neighbors" "KNN" 0.9 0.85 0.88 0.86]) ]),
    ("heart", [ ("disease_name", .str "Heart Disease"),
      ("results", .arr [algorithmResult "k_nearest_neighbors" "KNN" 0.8 0.75 0.78 0.76]) ]) ]

/-! ## The palette, channel by channel -/

/-- The red, green and blue channels of the seven palette entries, in palette order. -/
def paletteChannels : List (Nat × Nat × Nat) :=
  [ (54, 162, 235), (255, 99, 132), (75, 192, 192), (255, 159, 64),
    (153, 102, 255), (255, 205, 86), (201, 203, 207) ]

/-- The colour text `rgba(r, g, b, alpha)`. -/
def rgbaText (c : Nat × Nat × Nat) (alpha : String) : String :=
  "rgba(" ++ toString c.1 ++ ", " ++ toString c.2.1 ++ ", " ++ toString c.2.2 ++ ", "
    ++ alpha ++ ")"

/-- The channels of palette entry `i mod 7`. -/
def channelsAt (i : Nat) : Nat × Nat × Nat := paletteChannels.getD (i % 7) (0, 0, 0)

/-- A single-dataset response whose `results` array is empty. -/
def emptyResultsProps : List (String × JSValue) :=
  [ ("disease_name", .str "Diabetes"), ("results", .arr []) ]

/-! ## Shape detection -/

/-- C1: a response object with a top-level `results` array and a `disease_name` is sent
down the single-disease branch by both components: `ResultsDisplay` builds exactly one
`SingleDiseaseResults` element whose `disease` is the response's `disease_name` and whose
`results` is the response's `results` array unchanged, and `processData` fails the
multi-disease test, passes the single-disease test and runs the single-disease branch. -/
theorem single_response_takes_single_branch (props : List (String × JSValue))
    (rs : List JSValue) (name : JSValue)
    (hres : lookupProp "results" props = some (.arr rs))
    (hname : lookupProp "disease_name" props = some name) :
    ResultsDisplay (.obj props) = .ok (.single name (.arr rs)) ∧
    isMultiDiseaseChart (.obj props) = .ok false ∧
    isSingleDisease (.obj props) = .ok true ∧
    ∀ (chartType : ChartType) (metric : MetricName),
      processData (.obj props) chartType metric
        = singleDiseaseChart (.obj props) chartType metric := by
  have hm : isMultiDiseaseChart (.obj props) = .ok false := by
    simp only [isMultiDiseaseChart, typeofObject, getProp, hres, truthy, Option.getD_some]
    split <;> simp
  have hs : isSingleDisease (.obj props) = .ok true := by
    simp [isSingleDisease, getProp, hres, truthy]
  have hm2 : isMultiDisease (.obj props) = .ok false := by
    simp only [isMultiDisease, typeofObject, getProp, hres, truthy, Option.getD_some]
    simp
  refine ⟨?_, hm, hs, ?_⟩
  · simp [ResultsDisplay, hm2, hs, getProp, hres, hname]
  · intro chartType metric
    simp [processData, hm, hs]

/-- Witness for C1: the Diabetes example is rendered as one section titled "Diabetes"
over its own result list. -/
theorem single_response_takes_single_branch_witness :
    ResultsDisplay diabetesResponse = .ok (.single (.str "Diabetes") (.arr diabetesResults)) :=
  (single_response_takes_single_branch diabetesProps diabetesResults (.str "Diabetes")
    rfl rfl).1

/-! ### Multi-dataset responses -/

theorem mapE_eq_ok_map {α β : Type} (f : α → JS β) (g : α → β) (l : List α)
    (h : ∀ a ∈ l, f a = .ok (g a)) : mapE f l = .ok (l.map g) := by
  induction l with
  | nil => rfl
  | cons a l ih =>
    have ha : f a = .ok (g a) := h a (List.mem_cons_self a l)
    have hl : mapE f l = .ok (l.map g) := ih (fun b hb => h b (List.mem_cons_of_mem a hb))
    simp [mapE, ha, hl]

theorem mapE_map {α β γ : Type} (f : β → JS γ) (g : α → β) (l : List α) :
    mapE f (l.map g) = mapE (fun a => f (g a)) l := by
  induction l with
  | nil => rfl
  | cons a l ih => simp [mapE, ih]

theorem lookupProp_eq_none_of_not_mem (k : String) (ps : List (String × JSValue))
    (h : k ∉ ps.map Prod.fst) : lookupProp k ps = none := by
  induction ps with
  | nil => rfl
  | cons p ps ih =>
    obtain ⟨k', v⟩ := p
    simp only [List.map_cons, List.mem_cons, not_or] at h
    have hne : ¬ k' = k := fun e => h.1 e.symm
    simp [lookupProp, hne, ih h.2]

theorem lookupProp_eq_some_of_mem (k : String) (v : JSValue) (ps : List (String × JSValue))
    (hnd : (ps.map Prod.fst).Nodup) (h : (k, v) ∈ ps) : lookupProp k ps = some v := by
  induction ps with
  | nil => cases h
  | cons p ps ih =>
    obtain ⟨k', v'⟩ := p
    simp only [List.map_cons, List.nodup_cons] at hnd
    rcases List.mem_cons.1 h with heq | hmem
    · cases heq
      simp [lookupProp]
    · have hne : ¬ k' = k := by
        intro e
        subst e
        exact hnd.1 (List.mem_map_of_mem Prod.fst hmem)
      simp [lookupProp, hne, ih hnd.2 hmem]

theorem mappingResponse_keys (entries : List (String × List (String × JSValue))) :
    (entries.map (fun e => ((e.1, JSValue.obj e.2) : String × JSValue))).map Prod.fst
      = entries.map Prod.fst := by
  simp [List.map_map, Function.comp_def]

theorem getProp_mappingResponse_of_mem (entries : List (String × List (String × JSValue)))
    (hnd : (entries.map Prod.fst).Nodup) (e : String × List (String × JSValue))
    (he : e ∈ entries) : getProp (mappingResponse entries) e.1 = .ok (.obj e.2) := by
  have hmem : (e.1, JSValue.obj e.2) ∈ entries.map (fun e => (e.1, JSValue.obj e.2)) :=
    List.mem_map_of_mem _ he
  have hnd2 : ((entries.map (fun e => ((e.1, JSValue.obj e.2) : String × JSValue))).map
      Prod.fst).Nodup := by
    rw [mappingResponse_keys]; exact hnd
  simp [mappingResponse, getProp, lookupProp_eq_some_of_mem _ _ _ hnd2 hmem]

theorem getProp_mappingResponse_of_not_mem (entries : List (String × List (String × JSValue)))
    (k : String) (hk : k ∉ entries.map Prod.fst) :
    getProp (mappingResponse entries) k = .ok .undefined := by
  have hk2 : k ∉ (entries.map (fun e => ((e.1, JSValue.obj e.2) : String × JSValue))).map
      Prod.fst := by
    rw [mappingResponse_keys]; exact hk
  simp [mappingResponse, getProp, lookupProp_eq_none_of_not_mem _ _ hk2]

theorem objectKeys_mappingResponse (entries : List (String × List (String × JSValue))) :
    objectKeys (mappingResponse entries) = .ok (entries.map Prod.fst) := by
  simp [mappingResponse, objectKeys, List.map_map, Function.comp_def]

theorem isMultiDiseaseChart_mappingResponse
    (entries : List (String × List (String × JSValue)))
    (hd : "disease" ∉ entries.map Prod.fst) (hr : "results" ∉ entries.map Prod.fst) :
    isMultiDiseaseChart (mappingResponse entries) = .ok true := by
  have h1 := getProp_mappingResponse_of_not_mem entries "disease" hd
  have h2 := getProp_mappingResponse_of_not_mem entries "results" hr
  simp only [isMultiDiseaseChart, h1, h2]
  simp [mappingResponse, typeofObject, truthy]

theorem isMultiDisease_mappingResponse
    (entries : List (String × List (String × JSValue)))
    (hd : "disease" ∉ entries.map Prod.fst) (hr : "results" ∉ entries.map Prod.fst) :
    isMultiDisease (mappingResponse entries) = .ok true := by
  have h1 := getProp_mappingResponse_of_not_mem entries "disease" hd
  have h2 := getProp_mappingResponse_of_not_mem entries "results" hr
  simp only [isMultiDisease, h1, h2]
  simp [mappingResponse, typeofObject, truthy]

/-- C2 (as amended): a mapping from N dataset identifiers, none of them `disease` or
`results`, to dataset-result objects is sent down the multi-disease branch by both
components, and `ResultsDisplay` builds exactly one section per key, in key order, the
i-th with the i-th value's `results` and with the label `value.disease_name || key`
(the key whenever `disease_name` is falsy). -/
theorem multi_response_sections (entries : List (String × List (String × JSValue)))
    (hnd : (entries.map Prod.fst).Nodup)
    (hd : "disease" ∉ entries.map Prod.fst) (hr : "results" ∉ entries.map Prod.fst) :
    ResultsDisplay (mappingResponse entries)
      = .ok (.multi (entries.map (fun e =>
          (jsOr (field e.2 "disease_name") (.str e.1), field e.2 "results")))) ∧
    (entries.map (fun e =>
      (jsOr (field e.2 "disease_name") (.str e.1), field e.2 "results"))).length
        = entries.length ∧
    isMultiDiseaseChart (mappingResponse entries) = .ok true ∧
    ∀ (chartType : ChartType) (metric : MetricName),
      processData (mappingResponse entries) chartType metric
        = multiDiseaseChart (mappingResponse entries) metric := by
  have hm := isMultiDisease_mappingResponse entries hd hr
  have hc := isMultiDiseaseChart_mappingResponse entries hd hr
  have hsec : ∀ e ∈ entries, diseaseSection (mappingResponse entries) e.1
      = .ok (jsOr (field e.2 "disease_name") (.str e.1), field e.2 "results") := by
    intro e he
    simp only [diseaseSection, getProp_mappingResponse_of_mem entries hnd e he]
    simp [getProp, field]
  have hmap : mapE (diseaseSection (mappingResponse entries)) (entries.map Prod.fst)
      = .ok (entries.map (fun e =>
          (jsOr (field e.2 "disease_name") (.str e.1), field e.2 "results"))) := by
    have := mapE_eq_ok_map (fun e : String × List (String × JSValue) =>
      diseaseSection (mappingResponse entries) e.1)
      (fun e => (jsOr (field e.2 "disease_name") (.str e.1), field e.2 "results"))
      entries hsec
    rw [← this, mapE_map]
  refine ⟨?_, by simp, hc, ?_⟩
  · simp [ResultsDisplay, hm, objectKeys_mappingResponse, hmap]
  · intro chartType metric
    simp [processData, hc]

/-- Witness for C2: the two-dataset example gives two sections in key order, the first
labelled by its `disease_name`, the second (which has none) by its key. -/
theorem multi_response_sections_witness :
    (twoDatasetEntries.map Prod.fst).Nodup ∧
    ResultsDisplay (mappingResponse twoDatasetEntries)
      = .ok (.multi [ (.str "Diabetes", .arr datasetAResults),
                      (.str "heart", .arr datasetBResults) ]) :=
  ⟨by decide,
   (multi_response_sections twoDatasetEntries (by decide) (by decide) (by decide)).1⟩

/-- C2, counterexample to the claim as stated. (1) A mapping whose dataset identifier is
`disease` is not sent down the multi-disease branch: `ResultsDisplay` shows "no results"
and `processData` returns `null`, where the claim promises one dataset. (2) For a dataset
whose `disease_name` is the empty string the label is the key `diabetes`, where
`value.disease_name ?? key` is the empty string. -/
theorem multi_response_claim_fails :
    (ResultsDisplay diseaseKeyedResponse = .ok .noResults ∧
      processData diseaseKeyedResponse .bar .f1_score = .ok none ∧
      ResultsDisplay diseaseKeyedResponse
        ≠ .ok (.multi [(nullishOr (.str "Skin disease") (.str "disease"), .arr [])])) ∧
    (ResultsDisplay emptyNameResponse = .ok (.multi [(.str "diabetes", .arr [])]) ∧
      nullishOr (.str "") (.str "diabetes") = .str "" ∧
      ResultsDisplay emptyNameResponse
        ≠ .ok (.multi [(nullishOr (.str "") (.str "diabetes"), .arr [])])) := by
  have h1 : ResultsDisplay diseaseKeyedResponse = .ok .noResults := rfl
  have h2 : ResultsDisplay emptyNameResponse = .ok (.multi [(.str "diabetes", .arr [])]) := rfl
  refine ⟨⟨h1, rfl, ?_⟩, h2, rfl, ?_⟩
  · rw [h1]; simp
  · rw [h2]; simp [nullishOr]

/-! ### Unrecognised shapes -/

theorem getProp_obj (ps : List (String × JSValue)) (k : String) :
    getProp (.obj ps) k = .ok (field ps k) := rfl

theorem truthy_obj (ps : List (String × JSValue)) : truthy (.obj ps) = true := rfl

theorem multiDiseaseChart_ne_null (results : JSValue) (metric : MetricName) :
    multiDiseaseChart results metric ≠ .ok none := by
  unfold multiDiseaseChart
  split
  · simp
  · split
    · simp
    · split
      · simp
      · split <;> simp

theorem singleDiseaseChart_ne_null (results : JSValue) (chartType : ChartType)
    (metric : MetricName) : singleDiseaseChart results chartType metric ≠ .ok none := by
  unfold singleDiseaseChart
  split
  · simp
  · split
    · simp
    · split
      · simp
      · split
        · split <;> simp
        · split
          · simp
          · split <;> simp

theorem resultsDisplay_multi_ne_noResults (results : JSValue)
    (h : isMultiDisease results = .ok true) : ResultsDisplay results ≠ .ok .noResults := by
  unfold ResultsDisplay
  rw [h]
  simp only
  split
  · simp
  · split <;> simp

theorem resultsDisplay_single_ne_noResults (results : JSValue)
    (h : isSingleDisease results = .ok true) : ResultsDisplay results ≠ .ok .noResults := by
  cases hm : isMultiDisease results with
  | error e => simp [ResultsDisplay, hm]
  | ok b =>
    cases b with
    | true => exact resultsDisplay_multi_ne_noResults results hm
    | false =>
      unfold ResultsDisplay
      rw [hm, h]
      simp only
      split
      · simp
      · split <;> simp

/-- C3 (as amended): a response object with a truthy `disease` property and no truthy
`results` property makes neither component throw and gives the explicit no-data result,
the "no results available" view and `null` chart data. That result is distinguishable
from the output for a response of a recognised shape: whenever a branch test succeeds,
the view is not "no results" and the chart data is not `null`. The empty object is
handled as a multi-dataset response with zero datasets: an empty list of sections, and
chart data with no labels and no series. -/
theorem unrecognised_shape_no_data (props : List (String × JSValue))
    (hd : truthy (field props "disease") = true)
    (hr : truthy (field props "results") = false) :
    (ResultsDisplay (.obj props) = .ok .noResults ∧
      ∀ (chartType : ChartType) (metric : MetricName),
        processData (.obj props) chartType metric = .ok none) ∧
    (∀ results : JSValue, isMultiDisease results = .ok true ∨ isSingleDisease results = .ok true →
      ResultsDisplay results ≠ .ok .noResults) ∧
    (∀ (results : JSValue) (chartType : ChartType) (metric : MetricName),
      isMultiDiseaseChart results = .ok true ∨ isSingleDisease results = .ok true →
      processData results chartType metric ≠ .ok none) ∧
    (ResultsDisplay (.obj []) = .ok (.multi []) ∧
      ∀ (chartType : ChartType) (metric : MetricName),
        processData (.obj []) chartType metric = .ok (some { labels := [], datasets := [] })) := by
  have hm : isMultiDisease (.obj props) = .ok false := by
    simp [isMultiDisease, getProp_obj, truthy_obj, typeofObject, hd]
  have hc : isMultiDiseaseChart (.obj props) = .ok false := by
    simp [isMultiDiseaseChart, getProp_obj, typeofObject, hd]
  have hs : isSingleDisease (.obj props) = .ok false := by
    simp [isSingleDisease, getProp_obj, truthy_obj, hr]
  refine ⟨⟨?_, ?_⟩, ?_, ?_, rfl, ?_⟩
  · simp [ResultsDisplay, hm, hs]
  · intro chartType metric
    simp [processData, hc, hs]
  · intro results h
    rcases h with h | h
    · exact resultsDisplay_multi_ne_noResults results h
    · exact resultsDisplay_single_ne_noResults results h
  · intro results chartType metric h
    rcases h with h | h
    · simp only [processData, h]
      exact multiDiseaseChart_ne_null results metric
    · cases hmc : isMultiDiseaseChart results with
      | error e => simp [processData, hmc]
      | ok b =>
        cases b with
        | true =>
          simp only [processData, hmc]
          exact multiDiseaseChart_ne_null results metric
        | false =>
          simp only [processData, hmc, h]
          exact singleDiseaseChart_ne_null results chartType metric
  · intro chartType metric
    rfl

/-- Witness for C3: an object with only a `disease` key. -/
theorem unrecognised_shape_no_data_witness :
    truthy (field diseaseOnlyProps "disease") = true ∧
    truthy (field diseaseOnlyProps "results") = false ∧
    ResultsDisplay (.obj diseaseOnlyProps) = .ok .noResults ∧
    processData (.obj diseaseOnlyProps) .bar .f1_score = .ok none :=
  ⟨by decide, by decide,
   (unrecognised_shape_no_data diseaseOnlyProps (by decide) (by decide)).1.1,
   (unrecognised_shape_no_data diseaseOnlyProps (by decide) (by decide)).1.2 .bar .f1_score⟩

/-- C3, counterexample to the claim as stated. (1) The empty object is sent down the
multi-disease branch: the view is an empty list of sections, not "no results", and the
chart data is an object with no labels and no series, not `null`. (2) For a mapping one
of whose values has no `results` array, `processData` throws a `TypeError`
(`results[disease].results.forEach` on `undefined`). -/
theorem unrecognised_shape_claim_fails :
    (ResultsDisplay (.obj []) = .ok (.multi []) ∧
      ResultsDisplay (.obj []) ≠ .ok .noResults ∧
      processData (.obj []) .bar .f1_score = .ok (some { labels := [], datasets := [] }) ∧
      processData (.obj []) .bar .f1_score ≠ .ok none) ∧
    (processData missingResultsResponse .bar .f1_score = .error .TypeError ∧
      processData missingResultsResponse .bar .f1_score ≠ .ok none) := by
  have h1 : ResultsDisplay (.obj []) = .ok (.multi []) := rfl
  have h2 : processData (.obj []) .bar .f1_score
      = .ok (some { labels := [], datasets := [] }) := rfl
  have h3 : processData missingResultsResponse .bar .f1_score = .error .TypeError := rfl
  refine ⟨⟨h1, ?_, h2, ?_⟩, h3, ?_⟩
  · rw [h1]; simp
  · rw [h2]; simp
  · rw [h3]; simp

/-! ## Best-model selection -/

theorem f1Score?_eq_some (r : JSValue) (q : ℚ) (h : f1Score? r = some q) :
    ∃ ms, getProp r "metrics" = .ok ms ∧ getProp ms "f1_score" = .ok (.num q) := by
  unfold f1Score? at h
  split at h
  · rename_i ms hms
    refine ⟨ms, hms, ?_⟩
    split at h
    · rename_i q' hq
      simp only [Option.some.injEq] at h
      rw [hq, h]
    · cases h
  · cases h

theorem ne_undefined_of_f1Score? (r : JSValue) (q : ℚ) (h : f1Score? r = some q) :
    r ≠ .undefined := by
  intro e
  subst e
  simp [f1Score?, getProp] at h

theorem sortsAfter_of_ne_undefined (cmp : JSValue → JSValue → JS (Option ℚ)) (x y : JSValue)
    (hx : x ≠ .undefined) (hy : y ≠ .undefined) :
    sortsAfter cmp x y =
      match cmp x y with
      | .error e => .error e
      | .ok (some v) => .ok (decide (0 < v))
      | .ok none => .ok false := by
  cases x <;> cases y <;> first | rfl | exact absurd rfl hx | exact absurd rfl hy

theorem sortsAfter_compareF1 (a b : JSValue) (qa qb : ℚ)
    (ha : f1Score? a = some qa) (hb : f1Score? b = some qb) :
    sortsAfter compareF1 a b = .ok (decide (qa < qb)) := by
  rw [sortsAfter_of_ne_undefined _ _ _ (ne_undefined_of_f1Score? a qa ha)
    (ne_undefined_of_f1Score? b qb hb)]
  obtain ⟨ma, hma, hfa⟩ := f1Score?_eq_some a qa ha
  obtain ⟨mb, hmb, hfb⟩ := f1Score?_eq_some b qb hb
  simp [compareF1, hma, hfa, hmb, hfb, numberSub]

/-- Inserting a scored element into a list of scored elements succeeds, adds exactly that
element, and puts it in front unless the current head has a strictly larger score. -/
theorem sortInsert_scored (a : JSValue) (qa : ℚ) (ha : f1Score? a = some qa)
    (s : List JSValue) (hs : ∀ x ∈ s, ∃ q, f1Score? x = some q) :
    ∃ r, sortInsert compareF1 a s = .ok r ∧ (∀ x, x ∈ r ↔ x = a ∨ x ∈ s) ∧
      (∀ b t qb, s = b :: t → f1Score? b = some qb →
        r.head? = some (if qa < qb then b else a)) ∧
      (s = [] → r = [a]) := by
  induction s with
  | nil => exact ⟨[a], rfl, by simp, by simp, fun _ => rfl⟩
  | cons b t ih =>
    obtain ⟨qb, hb⟩ := hs b (List.mem_cons_self b t)
    obtain ⟨r, hr, hmem, -, -⟩ := ih (fun x hx => hs x (List.mem_cons_of_mem b hx))
    by_cases hlt : qa < qb
    · refine ⟨b :: r, ?_, ?_, ?_, by simp⟩
      · simp [sortInsert, sortsAfter_compareF1 a b qa qb ha hb, hlt, hr]
      · intro x
        simp only [List.mem_cons, hmem]
        tauto
      · intro b' t' qb' hcons hb'
        cases hcons
        rw [hb] at hb'
        cases hb'
        simp [hlt]
    · refine ⟨a :: b :: t, ?_, ?_, ?_, by simp⟩
      · simp [sortInsert, sortsAfter_compareF1 a b qa qb ha hb, hlt]
      · intro x
        simp
      · intro b' t' qb' hcons hb'
        cases hcons
        rw [hb] at hb'
        cases hb'
        simp [hlt]

/-- The sort of a list of scored results succeeds; its head is the first element of the
input carrying the maximal score. -/
theorem arraySort_scored (results : List JSValue)
    (hwf : ∀ r ∈ results, ∃ q, f1Score? r = some q) :
    ∃ sorted, arraySort compareF1 results = .ok sorted ∧
      (∀ x, x ∈ sorted ↔ x ∈ results) ∧
      (results = [] → sorted = []) ∧
      (results ≠ [] → ∃ pre m post q, results = pre ++ m :: post ∧
        sorted.head? = some m ∧ f1Score? m = some q ∧
        (∀ r ∈ pre, ∃ p, f1Score? r = some p ∧ p < q) ∧
        (∀ r ∈ post, ∃ p, f1Score? r = some p ∧ p ≤ q)) := by
  induction results with
  | nil => exact ⟨[], rfl, by simp, fun _ => rfl, fun h => absurd rfl h⟩
  | cons a l ih =>
    obtain ⟨qa, ha⟩ := hwf a (List.mem_cons_self a l)
    obtain ⟨s, hs, hmem, hnil, hhead⟩ := ih (fun r hr => hwf r (List.mem_cons_of_mem a hr))
    have hswf : ∀ x ∈ s, ∃ q, f1Score? x = some q :=
      fun x hx => hwf x (List.mem_cons_of_mem a ((hmem x).1 hx))
    obtain ⟨r, hr, hrmem, hrhead, hrnil⟩ := sortInsert_scored a qa ha s hswf
    refine ⟨r, ?_, ?_, (fun h => by cases h), fun _ => ?_⟩
    · simp [arraySort, hs, hr]
    · intro x
      rw [hrmem, hmem]
      simp
    · by_cases hl : l = []
      · subst hl
        have hsn := hnil rfl
        subst hsn
        refine ⟨[], a, [], qa, rfl, ?_, ha, by simp, by simp⟩
        rw [hrnil rfl]
        rfl
      · obtain ⟨pre, m, post, q, hdec, hm, hq, hpre, hpost⟩ := hhead hl
        cases s with
        | nil => simp at hm
        | cons b t =>
          simp only [List.head?_cons, Option.some.injEq] at hm
          subst hm
          have hrh := hrhead b t q rfl hq
          by_cases hlt : qa < q
          · refine ⟨a :: pre, b, post, q, by simp [hdec], ?_, hq, ?_, hpost⟩
            · simpa [hlt] using hrh
            · intro x hx
              rcases List.mem_cons.1 hx with hxa | hxp
              · subst hxa
                exact ⟨qa, ha, hlt⟩
              · exact hpre x hxp
          · have hle : q ≤ qa := not_lt.1 hlt
            refine ⟨[], a, l, qa, rfl, ?_, ha, by simp, ?_⟩
            · simpa [hlt] using hrh
            · intro x hx
              rw [hdec] at hx
              rcases List.mem_append.1 hx with hxp | hxm
              · obtain ⟨p, hp, hpq⟩ := hpre x hxp
                exact ⟨p, hp, le_trans (le_of_lt hpq) hle⟩
              · rcases List.mem_cons.1 hxm with hxb | hxpost
                · subst hxb
                  exact ⟨q, hq, hle⟩
                · obtain ⟨p, hp, hpq⟩ := hpost x hxpost
                  exact ⟨p, hp, le_trans hpq hle⟩

/-- C4: for a non-empty list of algorithm results (each with a numeric
`metrics.f1_score`), best-model selection returns an element `m` of the list such that
every element before `m` has a strictly smaller f1 score and every element after `m` has
an f1 score at most that of `m`: the maximal score, and among ties the first in the
original order. -/
theorem bestModel_first_maximum (results : List JSValue) (hne : results ≠ [])
    (hwf : ∀ r ∈ results, ∃ q, f1Score? r = some q) :
    ∃ pre m post q, results = pre ++ m :: post ∧
      bestModel results = .ok m ∧ f1Score? m = some q ∧
      (∀ r ∈ pre, ∃ p, f1Score? r = some p ∧ p < q) ∧
      (∀ r ∈ post, ∃ p, f1Score? r = some p ∧ p ≤ q) := by
  obtain ⟨sorted, hs, -, -, hhead⟩ := arraySort_scored results hwf
  obtain ⟨pre, m, post, q, hdec, hm, hq, hpre, hpost⟩ := hhead hne
  exact ⟨pre, m, post, q, hdec, by simp [bestModel, hs, hm], hq, hpre, hpost⟩

theorem f1Score?_scored (name : String) (f1 : ℚ) : f1Score? (scored name f1) = some f1 := rfl

/-- Witness for C4: on the tie example `[0.8, 0.9, 0.9]` the selection returns the entry
originally at index 1, the first of the tied pair. -/
theorem bestModel_first_maximum_witness :
    tieExample ≠ [] ∧ bestModel tieExample = .ok (scored "second" 0.9) := by
  refine ⟨by simp [tieExample], ?_⟩
  obtain ⟨pre, m, post, q, hdec, hbest, hq, hpre, hpost⟩ :=
    bestModel_first_maximum tieExample (by simp [tieExample]) (by
      intro r hr
      simp only [tieExample, List.mem_cons, List.mem_singleton, List.not_mem_nil, or_false] at hr
      rcases hr with rfl | rfl | rfl <;> exact ⟨_, f1Score?_scored _ _⟩)
  rw [hbest]
  rcases pre with _ | ⟨x, _ | ⟨y, _ | ⟨z, pre⟩⟩⟩
  · simp only [tieExample, List.nil_append, List.cons.injEq] at hdec
    obtain ⟨hm, hp⟩ := hdec
    subst hm
    subst hp
    rw [f1Score?_scored] at hq
    cases hq
    obtain ⟨p, hp, hle⟩ := hpost (scored "second" 0.9) (by simp)
    rw [f1Score?_scored] at hp
    cases hp
    norm_num at hle
  · simp only [tieExample, List.cons_append, List.nil_append, List.cons.injEq] at hdec
    rw [← hdec.2.1]
  · simp only [tieExample, List.cons_append, List.nil_append, List.cons.injEq] at hdec
    obtain ⟨hx, hy, hm, hp⟩ := hdec
    subst hx
    subst hy
    subst hm
    rw [f1Score?_scored] at hq
    cases hq
    obtain ⟨p, hp, hlt⟩ := hpre (scored "second" 0.9) (by simp)
    rw [f1Score?_scored] at hp
    cases hp
    norm_num at hlt
  · simp [tieExample] at hdec

/-- C5 (as amended): on an empty result list the guard `results.length > 0` skips
best-model selection. No exception is raised and no model is selected: the section is
the guard's value, for which nothing is rendered. That outcome is distinguishable from
any selected model: whenever the section holds a model, the list was not empty. (Without
the guard, element 0 of the sorted empty copy is `undefined`.) -/
theorem bestModelSection_empty :
    bestModelSection [] = .ok none ∧
    bestModel [] = .ok .undefined ∧
    ∀ (results : List JSValue) (m : JSValue),
      bestModelSection results = .ok (some m) → results ≠ [] := by
  refine ⟨rfl, rfl, ?_⟩
  intro results m h hnil
  subst hnil
  simp [bestModelSection] at h

/-- C5, counterexample to the claim as stated: on the empty list the selection does not
fail with any error; it silently produces nothing. -/
theorem bestModelSection_empty_claim_fails :
    (∀ e : JSError, bestModelSection [] ≠ .error e) ∧
    bestModelSection [] = .ok none := by
  refine ⟨?_, rfl⟩
  intro e h
  simp [bestModelSection] at h

/-! ## Multi-dataset chart data -/

theorem arrayIndex?_algorithm : arrayIndex? "algorithm" = none := rfl

theorem arrayIndex?_metrics : arrayIndex? "metrics" = none := rfl

theorem wellFormedResult_spec (r : JSValue) (h : wellFormedResult r = true) :
    ∃ a ms rp, r = .obj rp ∧ getProp r "algorithm" = .ok (.str a) ∧
      getProp r "metrics" = .ok (.obj ms) := by
  cases r with
  | obj rp =>
    unfold wellFormedResult at h
    split at h
    · rename_i a ms ha hms
      exact ⟨_, _, rp, rfl, ha, hms⟩
    · cases h
  | undefined => simp [wellFormedResult, getProp] at h
  | null => simp [wellFormedResult, getProp] at h
  | bool b => simp [wellFormedResult, getProp] at h
  | num q => simp [wellFormedResult, getProp] at h
  | str s =>
    simp only [wellFormedResult, getProp, arrayIndex?_algorithm, arrayIndex?_metrics] at h
    simp at h
  | arr xs =>
    simp only [wellFormedResult, getProp, arrayIndex?_algorithm, arrayIndex?_metrics] at h
    simp at h

theorem resultAlgorithm?_of_getProp (r : JSValue) (a : String)
    (h : getProp r "algorithm" = .ok (.str a)) : resultAlgorithm? r = some a := by
  simp [resultAlgorithm?, h]

theorem includes_map_str (acc : List String) (a : String) :
    includes (acc.map JSValue.str) (.str a) = decide (a ∈ acc) := by
  induction acc with
  | nil => simp [includes]
  | cons b acc ih =>
    simp only [includes, List.map_cons, List.any_cons] at ih ⊢
    rw [ih]
    by_cases hba : b = a
    · simp [strictEquals, hba]
    · have hab : ¬ a = b := fun e => hba e.symm
      simp [strictEquals, hba, hab]

theorem collectStep_wellFormed (acc : List String) (r : JSValue)
    (h : wellFormedResult r = true) :
    ∃ a, resultAlgorithm? r = some a ∧
      collectStep (acc.map JSValue.str) r = .ok ((pushNew acc a).map JSValue.str) := by
  obtain ⟨a, ms, rp, -, ha, -⟩ := wellFormedResult_spec r h
  refine ⟨a, resultAlgorithm?_of_getProp r a ha, ?_⟩
  simp only [collectStep, ha, includes_map_str, pushNew]
  by_cases hmem : a ∈ acc <;> simp [hmem]

theorem foldlE_collectStep (rs : List JSValue) (acc : List String)
    (h : rs.all wellFormedResult = true) :
    foldlE collectStep (acc.map JSValue.str) rs
      = .ok (((rs.filterMap resultAlgorithm?).foldl pushNew acc).map JSValue.str) := by
  induction rs generalizing acc with
  | nil => rfl
  | cons r rs ih =>
    simp only [List.all_cons, Bool.and_eq_true] at h
    obtain ⟨a, ha, hstep⟩ := collectStep_wellFormed acc r h.1
    simp [foldlE, hstep, ih (pushNew acc a) h.2, List.filterMap_cons, ha]

theorem wellFormedDataset_spec (ps : List (String × JSValue))
    (h : wellFormedDataset ps = true) :
    field ps "results" = .arr (resultsOf ps) ∧ (resultsOf ps).all wellFormedResult = true := by
  unfold wellFormedDataset at h
  unfold resultsOf
  split at h
  · rename_i rs hrs
    simp [hrs, h]
  · cases h

theorem diseaseResults_mappingResponse (entries : List (String × List (String × JSValue)))
    (hnd : (entries.map Prod.fst).Nodup) (e : String × List (String × JSValue))
    (he : e ∈ entries) (hwf : wellFormedDataset e.2 = true) :
    diseaseResults (mappingResponse entries) e.1 = .ok (resultsOf e.2) := by
  simp only [diseaseResults, getProp_mappingResponse_of_mem entries hnd e he, getProp_obj,
    (wellFormedDataset_spec e.2 hwf).1, asArray]

theorem collectAlgorithms_fold (entries : List (String × List (String × JSValue)))
    (hnd : (entries.map Prod.fst).Nodup)
    (sub : List (String × List (String × JSValue))) (acc : List String)
    (hsub : ∀ e ∈ sub, e ∈ entries ∧ wellFormedDataset e.2 = true) :
    foldlE (fun acc disease =>
        match diseaseResults (mappingResponse entries) disease with
        | .error e => .error e
        | .ok rs => foldlE collectStep acc rs) (acc.map JSValue.str) (sub.map Prod.fst)
      = .ok (((algorithmIds sub).foldl pushNew acc).map JSValue.str) := by
  induction sub generalizing acc with
  | nil => rfl
  | cons e sub ih =>
    obtain ⟨he, hwf⟩ := hsub e (List.mem_cons_self e sub)
    have hrest := fun acc' => ih acc' (fun x hx => hsub x (List.mem_cons_of_mem e hx))
    simp only [List.map_cons, foldlE, diseaseResults_mappingResponse entries hnd e he hwf,
      foldlE_collectStep _ acc (wellFormedDataset_spec e.2 hwf).2, hrest]
    simp [algorithmIds, List.flatMap_cons, List.foldl_append]

theorem foldl_pushNew (l acc : List String) :
    l.foldl pushNew acc = acc ++ (firstOccurrences l).filter (fun x => decide (x ∉ acc)) := by
  induction l generalizing acc with
  | nil => simp [firstOccurrences]
  | cons a l ih =>
    simp only [List.foldl_cons, firstOccurrences]
    rw [ih]
    by_cases hmem : a ∈ acc
    · have hfilter : (List.filter (fun x => decide (x ∉ acc))
          (List.filter (fun x => decide (x ≠ a)) (firstOccurrences l)))
          = List.filter (fun x => decide (x ∉ acc)) (firstOccurrences l) := by
        rw [List.filter_filter]
        apply List.filter_congr
        intro x _
        by_cases hx : x ∈ acc
        · simp [hx]
        · have : x ≠ a := fun e => hx (e ▸ hmem)
          simp [hx, this]
      rw [List.filter_cons]
      simp only [pushNew, hmem, if_true, hfilter]
      simp [hmem]
    · have hfilter : List.filter (fun x => decide (x ∉ acc ++ [a])) (firstOccurrences l)
          = (List.filter (fun x => decide (x ∉ acc))
              (List.filter (fun x => decide (x ≠ a)) (firstOccurrences l))) := by
        rw [List.filter_filter]
        apply List.filter_congr
        intro x _
        simp [not_or]
      simp [pushNew, hmem, hfilter]

theorem collectAlgorithms_mappingResponse (entries : List (String × List (String × JSValue)))
    (hnd : (entries.map Prod.fst).Nodup)
    (hwf : entries.all (fun e => wellFormedDataset e.2) = true) :
    collectAlgorithms (mappingResponse entries) (entries.map Prod.fst)
      = .ok ((firstOccurrences (algorithmIds entries)).map JSValue.str) := by
  have h := collectAlgorithms_fold entries hnd entries [] (fun e he =>
    ⟨he, by simpa using (List.all_eq_true.1 hwf) e he⟩)
  rw [foldl_pushNew] at h
  simpa [collectAlgorithms] using h

theorem findE_algorithm (a : String) (rs : List JSValue)
    (h : rs.all wellFormedResult = true) :
    findE (fun result =>
        match getProp result "algorithm" with
        | .error e => .error e
        | .ok x => .ok (strictEquals x (.str a))) rs
      = .ok ((rs.find? (fun r => resultAlgorithm? r == some a)).getD .undefined) := by
  induction rs with
  | nil => rfl
  | cons r rs ih =>
    simp only [List.all_cons, Bool.and_eq_true] at h
    obtain ⟨b, ms, rp, -, hb, -⟩ := wellFormedResult_spec r h.1
    have hra := resultAlgorithm?_of_getProp r b hb
    by_cases hba : b = a
    · subst hba
      have hstep : strictEquals (.str b) (.str b) = true := by simp [strictEquals]
      simp [findE, hb, hra, hstep, List.find?_cons]
    · have hstep : strictEquals (.str b) (.str a) = false := by simp [strictEquals, hba]
      simp [findE, hb, hra, hstep, hba, List.find?_cons, ih h.2]

theorem diseaseSlot_mappingResponse (entries : List (String × List (String × JSValue)))
    (hnd : (entries.map Prod.fst).Nodup) (metric : MetricName) (a : String)
    (e : String × List (String × JSValue)) (he : e ∈ entries)
    (hwf : wellFormedDataset e.2 = true) :
    diseaseSlot (mappingResponse entries) metric (.str a) e.1
      = .ok (slotValue metric a (resultsOf e.2)) := by
  have hall := (wellFormedDataset_spec e.2 hwf).2
  simp only [diseaseSlot, diseaseResults_mappingResponse entries hnd e he hwf,
    findE_algorithm a _ hall, slotValue]
  cases hfind : (resultsOf e.2).find? (fun r => resultAlgorithm? r == some a) with
  | none => simp [truthy]
  | some r =>
    have hr : r ∈ resultsOf e.2 := List.mem_of_find?_eq_some hfind
    obtain ⟨b, ms, rp, hobj, -, hms⟩ := wellFormedResult_spec r (List.all_eq_true.1 hall r hr)
    simp only [Option.getD_some, metricOf, metricValue, hms]
    subst hobj
    simp [truthy, getProp_obj]

theorem algorithmSeries_mappingResponse (entries : List (String × List (String × JSValue)))
    (hnd : (entries.map Prod.fst).Nodup)
    (hwf : entries.all (fun e => wellFormedDataset e.2) = true)
    (metric : MetricName) (a : String) (index : Nat) :
    algorithmSeries (mappingResponse entries) (entries.map Prod.fst) metric (.str a) index
      = .ok (seriesOf entries metric a index) := by
  have hslots : mapE (diseaseSlot (mappingResponse entries) metric (.str a))
      (entries.map Prod.fst)
      = .ok (entries.map (fun e => slotValue metric a (resultsOf e.2))) := by
    rw [mapE_map]
    apply mapE_eq_ok_map
    intro e he
    exact diseaseSlot_mappingResponse entries hnd metric a e he
      (by simpa using (List.all_eq_true.1 hwf) e he)
  simp [algorithmSeries, hslots, asString, seriesOf]

theorem mapIdxE_map_eq_ok {α β γ : Type} (f : β → Nat → JS γ) (h : α → β) (g : α → Nat → γ)
    (l : List α) (n : Nat) (hfg : ∀ a i, f (h a) i = .ok (g a i)) :
    mapIdxE f n (l.map h) = .ok (mapIdxFrom g n l) := by
  induction l generalizing n with
  | nil => rfl
  | cons a l ih => simp [mapIdxE, mapIdxFrom, hfg, ih]

theorem map_mapIdxFrom {α β γ : Type} (g : α → Nat → β) (p : β → γ) (q : α → γ)
    (l : List α) (n : Nat) (hpq : ∀ a i, p (g a i) = q a) :
    (mapIdxFrom g n l).map p = l.map q := by
  induction l generalizing n with
  | nil => rfl
  | cons a l ih => simp [mapIdxFrom, hpq, ih]

theorem length_mapIdxFrom {α β : Type} (g : α → Nat → β) (l : List α) (n : Nat) :
    (mapIdxFrom g n l).length = l.length := by
  induction l generalizing n with
  | nil => rfl
  | cons a l ih => simp [mapIdxFrom, ih]

theorem diseaseLabel_mappingResponse (entries : List (String × List (String × JSValue)))
    (hnd : (entries.map Prod.fst).Nodup) (e : String × List (String × JSValue))
    (he : e ∈ entries) :
    diseaseLabel (mappingResponse entries) e.1
      = .ok (jsOr (field e.2 "disease_name") (.str e.1)) := by
  simp only [diseaseLabel, getProp_mappingResponse_of_mem entries hnd e he, getProp_obj]

/-- The chart data of a well-formed multi-dataset response, in closed form. -/
theorem multiDiseaseChart_mappingResponse (entries : List (String × List (String × JSValue)))
    (metric : MetricName) (hnd : (entries.map Prod.fst).Nodup)
    (hwf : entries.all (fun e => wellFormedDataset e.2) = true) :
    multiDiseaseChart (mappingResponse entries) metric
      = .ok (some
          { labels := entries.map (fun e => jsOr (field e.2 "disease_name") (.str e.1))
            datasets := mapIdxFrom (seriesOf entries metric) 0
              (firstOccurrences (algorithmIds entries)) }) := by
  have hseries := mapIdxE_map_eq_ok
    (algorithmSeries (mappingResponse entries) (entries.map Prod.fst) metric) JSValue.str
    (seriesOf entries metric) (firstOccurrences (algorithmIds entries)) 0
    (algorithmSeries_mappingResponse entries hnd hwf metric)
  have hlabels : mapE (diseaseLabel (mappingResponse entries)) (entries.map Prod.fst)
      = .ok (entries.map (fun e => jsOr (field e.2 "disease_name") (.str e.1))) := by
    rw [mapE_map]
    apply mapE_eq_ok_map
    intro e he
    exact diseaseLabel_mappingResponse entries hnd e he
  simp only [multiDiseaseChart, objectKeys_mappingResponse,
    collectAlgorithms_mappingResponse entries hnd hwf, hseries, hlabels]

/-! ### First occurrences -/

theorem mem_firstOccurrences (l : List String) (a : String) :
    a ∈ firstOccurrences l ↔ a ∈ l := by
  induction l with
  | nil => simp [firstOccurrences]
  | cons b l ih =>
    simp only [firstOccurrences, List.mem_cons, List.mem_filter, ih]
    by_cases hab : a = b <;> simp [hab]

theorem nodup_firstOccurrences (l : List String) : (firstOccurrences l).Nodup := by
  induction l with
  | nil => simp [firstOccurrences]
  | cons b l ih =>
    simp only [firstOccurrences, List.nodup_cons, List.mem_filter]
    exact ⟨by simp, ih.filter _⟩

theorem indexOf_filter_ne_lt (c a b : String) (hac : a ≠ c) (hbc : b ≠ c) (t : List String) :
    (t.filter (fun x => decide (x ≠ c))).indexOf a < (t.filter (fun x => decide (x ≠ c))).indexOf b
      ↔ t.indexOf a < t.indexOf b := by
  induction t with
  | nil => simp
  | cons d t ih =>
    by_cases hdc : d = c
    · subst hdc
      have h1 : ¬ d = a := fun e => hac e.symm
      have h2 : ¬ d = b := fun e => hbc e.symm
      simpa [List.filter_cons, List.indexOf_cons_ne _ h1, List.indexOf_cons_ne _ h2] using ih
    · simp only [List.filter_cons, hdc, ne_eq, not_false_eq_true, decide_True, if_true]
      by_cases hda : d = a
      · subst hda
        by_cases hdb : d = b
        · subst hdb; simp
        · simp [List.indexOf_cons_ne _ hdb]
      · by_cases hdb : d = b
        · subst hdb
          simp [List.indexOf_cons_ne _ hda]
        · simpa [List.indexOf_cons_ne _ hda, List.indexOf_cons_ne _ hdb] using ih

theorem indexOf_firstOccurrences_lt (l : List String) (a b : String) :
    (firstOccurrences l).indexOf a < (firstOccurrences l).indexOf b
      ↔ l.indexOf a < l.indexOf b := by
  induction l with
  | nil => simp [firstOccurrences]
  | cons c l ih =>
    simp only [firstOccurrences]
    by_cases hca : c = a
    · subst hca
      by_cases hcb : c = b
      · subst hcb; simp
      · simp [List.indexOf_cons_ne _ hcb]
    · by_cases hcb : c = b
      · subst hcb
        simp [List.indexOf_cons_ne _ hca]
      · simp only [List.indexOf_cons_ne _ hca, List.indexOf_cons_ne _ hcb,
          Nat.succ_lt_succ_iff]
        rw [indexOf_filter_ne_lt c a b (fun e => hca e.symm) (fun e => hcb e.symm), ih]

/-! ### The claims on multi-dataset chart data -/

theorem processData_mappingResponse (entries : List (String × List (String × JSValue)))
    (chartType : ChartType) (metric : MetricName) (hnd : (entries.map Prod.fst).Nodup)
    (hd : "disease" ∉ entries.map Prod.fst) (hr : "results" ∉ entries.map Prod.fst)
    (hwf : entries.all (fun e => wellFormedDataset e.2) = true) :
    processData (mappingResponse entries) chartType metric
      = .ok (some
          { labels := entries.map (fun e => jsOr (field e.2 "disease_name") (.str e.1))
            datasets := mapIdxFrom (seriesOf entries metric) 0
              (firstOccurrences (algorithmIds entries)) }) := by
  simp only [processData, isMultiDiseaseChart_mappingResponse entries hd hr,
    multiDiseaseChart_mappingResponse entries metric hnd hwf]

theorem singleDiseaseChart_of_object (results : JSValue) (ps : List (String × JSValue))
    (chartType : ChartType) (metric : MetricName)
    (h : getProp results "results" = .ok (.obj ps)) :
    singleDiseaseChart results chartType metric = .error .TypeError := by
  simp only [singleDiseaseChart, h]
  cases singleMetrics (.obj ps) with
  | error e => cases e; rfl
  | ok metrics => rfl

theorem getProp_mappingResponse_of_key (entries : List (String × List (String × JSValue)))
    (hnd : (entries.map Prod.fst).Nodup) (k : String) (hk : k ∈ entries.map Prod.fst) :
    ∃ ps, getProp (mappingResponse entries) k = .ok (.obj ps) := by
  obtain ⟨e, he, hek⟩ := List.mem_map.1 hk
  exact ⟨e.2, hek ▸ getProp_mappingResponse_of_mem entries hnd e he⟩

/-- A mapping with a dataset keyed `disease` or `results` yields no chart data. -/
theorem processData_mappingResponse_no_chart
    (entries : List (String × List (String × JSValue)))
    (chartType : ChartType) (metric : MetricName) (hnd : (entries.map Prod.fst).Nodup)
    (h : ¬ ("disease" ∉ entries.map Prod.fst ∧ "results" ∉ entries.map Prod.fst))
    (chart : ChartData) :
    processData (mappingResponse entries) chartType metric ≠ .ok (some chart) := by
  have hobj : typeofObject (mappingResponse entries) = true := rfl
  have htr : truthy (mappingResponse entries) = true := rfl
  by_cases hr : "results" ∈ entries.map Prod.fst
  · obtain ⟨ps, hps⟩ := getProp_mappingResponse_of_key entries hnd "results" hr
    have hs : isSingleDisease (mappingResponse entries) = .ok true := by
      simp [isSingleDisease, htr, hps, truthy_obj]
    have hm : isMultiDiseaseChart (mappingResponse entries) = .ok false := by
      by_cases hd : "disease" ∈ entries.map Prod.fst
      · obtain ⟨pd, hpd⟩ := getProp_mappingResponse_of_key entries hnd "disease" hd
        simp [isMultiDiseaseChart, hobj, hpd, truthy_obj]
      · have hpd := getProp_mappingResponse_of_not_mem entries "disease" hd
        have hu : truthy .undefined = false := rfl
        simp [isMultiDiseaseChart, hobj, hpd, hps, truthy_obj, hu]
    simp [processData, hm, hs, singleDiseaseChart_of_object _ ps chartType metric hps]
  · have hd : "disease" ∈ entries.map Prod.fst := by
      by_contra hd
      exact h ⟨hd, hr⟩
    obtain ⟨pd, hpd⟩ := getProp_mappingResponse_of_key entries hnd "disease" hd
    have hpr := getProp_mappingResponse_of_not_mem entries "results" hr
    have hu : truthy .undefined = false := rfl
    have hm : isMultiDiseaseChart (mappingResponse entries) = .ok false := by
      simp [isMultiDiseaseChart, hobj, hpd, truthy_obj]
    have hs : isSingleDisease (mappingResponse entries) = .ok false := by
      simp [isSingleDisease, htr, hpr, hu]
    simp [processData, hm, hs]

/-- C6: in bar mode, for every well-formed multi-dataset response, whenever chart data
is produced, the series, taken in order, are those of the first-seen algorithm
identifiers, and the data of the series of identifier `a` has exactly one slot per
dataset, in dataset order, holding `slotValue`: the chosen metric of the first result of
that dataset whose identifier is `a`, and exactly `0` when the dataset has no result for
`a`. Chart data is produced whenever no dataset is keyed `disease` or `results`. -/
theorem multi_chart_zero_filled_slots (entries : List (String × List (String × JSValue)))
    (metric : MetricName) (hnd : (entries.map Prod.fst).Nodup)
    (hwf : entries.all (fun e => wellFormedDataset e.2) = true) :
    (∀ chart, processData (mappingResponse entries) .bar metric = .ok (some chart) →
      chart.datasets.map (fun s => s.data)
        = (firstOccurrences (algorithmIds entries)).map
            (fun a => entries.map (fun e => slotValue metric a (resultsOf e.2))) ∧
      ∀ s ∈ chart.datasets, s.data.length = entries.length) ∧
    ("disease" ∉ entries.map Prod.fst → "results" ∉ entries.map Prod.fst →
      ∃ chart, processData (mappingResponse entries) .bar metric = .ok (some chart)) ∧
    (∀ (a : String) (rs : List JSValue) (r : JSValue),
      rs.find? (fun x => resultAlgorithm? x == some a) = some r →
      slotValue metric a rs = metricOf metric r) ∧
    (∀ (a : String) (rs : List JSValue),
      (∀ r ∈ rs, resultAlgorithm? r ≠ some a) → slotValue metric a rs = .num 0) := by
  have hdata := map_mapIdxFrom (seriesOf entries metric) (fun s => s.data)
    (fun a => entries.map
      (fun (e : String × List (String × JSValue)) => slotValue metric a (resultsOf e.2)))
    (firstOccurrences (algorithmIds entries)) 0 (fun a i => rfl)
  refine ⟨?_, ?_, ?_, ?_⟩
  · intro chart hchart
    by_cases hkeys : "disease" ∉ entries.map Prod.fst ∧ "results" ∉ entries.map Prod.fst
    · rw [processData_mappingResponse entries .bar metric hnd hkeys.1 hkeys.2 hwf] at hchart
      simp only [Except.ok.injEq, Option.some.injEq] at hchart
      subst hchart
      refine ⟨hdata, ?_⟩
      intro s hs
      have hmem : s.data ∈ (mapIdxFrom (seriesOf entries metric) 0
          (firstOccurrences (algorithmIds entries))).map (fun s => s.data) :=
        List.mem_map_of_mem _ hs
      rw [hdata] at hmem
      obtain ⟨a, -, ha⟩ := List.mem_map.1 hmem
      rw [← ha, List.length_map]
    · exact absurd hchart
        (processData_mappingResponse_no_chart entries .bar metric hnd hkeys chart)
  · intro hd hr
    exact ⟨_, processData_mappingResponse entries .bar metric hnd hd hr hwf⟩
  · intro a rs r hfind
    simp [slotValue, hfind]
  · intro a rs hnone
    have hfind : rs.find? (fun x => resultAlgorithm? x == some a) = none := by
      rw [List.find?_eq_none]
      intro x hx
      simpa using hnone x hx
    simp [slotValue, hfind]

/-- Witness for C6: dataset A has `[rf, lr]` and dataset B has `[lr]` only; with metric
`f1_score` the `rf` series is `[0.86, 0]` and the `lr` series is `[0.76, 0.66]`. -/
theorem multi_chart_zero_filled_slots_witness :
    (twoDatasetEntries.map Prod.fst).Nodup ∧
    twoDatasetEntries.all (fun e => wellFormedDataset e.2) = true ∧
    ∃ chart, processData (mappingResponse twoDatasetEntries) .bar .f1_score
        = .ok (some chart) ∧
      chart.datasets.map (fun s => s.data)
        = [[.num 0.86, .num 0], [.num 0.76, .num 0.66]] := by
  refine ⟨by decide, rfl, ?_⟩
  obtain ⟨hall, hex, -⟩ := multi_chart_zero_filled_slots twoDatasetEntries
    .f1_score (by decide) rfl
  obtain ⟨chart, hchart⟩ := hex (by decide) (by decide)
  exact ⟨chart, hchart, (hall chart hchart).1.trans rfl⟩

/-- C7: in bar mode, for every well-formed multi-dataset response, whenever chart data
is produced, the series correspond one-to-one, by position, to the list of first
occurrences of the algorithm identifiers met when datasets are scanned in key order and
results in sequence order: the i-th series is the series of the i-th such identifier.
That list has no repetition, contains exactly the identifiers that occur, and orders them
as their first occurrences are ordered. Chart data is produced whenever no dataset is
keyed `disease` or `results`. -/
theorem multi_chart_series_first_seen (entries : List (String × List (String × JSValue)))
    (metric : MetricName) (hnd : (entries.map Prod.fst).Nodup)
    (hwf : entries.all (fun e => wellFormedDataset e.2) = true) :
    (∀ chart, processData (mappingResponse entries) .bar metric = .ok (some chart) →
      chart.datasets
        = mapIdxFrom (seriesOf entries metric) 0 (firstOccurrences (algorithmIds entries)) ∧
      chart.datasets.length = (firstOccurrences (algorithmIds entries)).length ∧
      chart.datasets.map (fun s => s.label)
        = (firstOccurrences (algorithmIds entries)).map (fun a => .str (formatLabel a))) ∧
    ("disease" ∉ entries.map Prod.fst → "results" ∉ entries.map Prod.fst →
      ∃ chart, processData (mappingResponse entries) .bar metric = .ok (some chart)) ∧
    (firstOccurrences (algorithmIds entries)).Nodup ∧
    (∀ a, a ∈ firstOccurrences (algorithmIds entries) ↔ a ∈ algorithmIds entries) ∧
    (∀ a b,
      (firstOccurrences (algorithmIds entries)).indexOf a
          < (firstOccurrences (algorithmIds entries)).indexOf b
        ↔ (algorithmIds entries).indexOf a < (algorithmIds entries).indexOf b) := by
  refine ⟨?_, ?_, nodup_firstOccurrences _, mem_firstOccurrences _,
    indexOf_firstOccurrences_lt _⟩
  · intro chart hchart
    by_cases hkeys : "disease" ∉ entries.map Prod.fst ∧ "results" ∉ entries.map Prod.fst
    · rw [processData_mappingResponse entries .bar metric hnd hkeys.1 hkeys.2 hwf] at hchart
      simp only [Except.ok.injEq, Option.some.injEq] at hchart
      subst hchart
      refine ⟨rfl, length_mapIdxFrom _ _ _, ?_⟩
      exact map_mapIdxFrom (seriesOf entries metric) (fun s => s.label)
        (fun a => JSValue.str (formatLabel a)) _ 0 (fun a i => rfl)
    · exact absurd hchart
        (processData_mappingResponse_no_chart entries .bar metric hnd hkeys chart)
  · intro hd hr
    exact ⟨_, processData_mappingResponse entries .bar metric hnd hd hr hwf⟩

/-- Witness for C7: datasets `[rf, lr]` and `[lr]` give the two series `RF`, `LR`. -/
theorem multi_chart_series_first_seen_witness :
    (twoDatasetEntries.map Prod.fst).Nodup ∧
    twoDatasetEntries.all (fun e => wellFormedDataset e.2) = true ∧
    algorithmIds twoDatasetEntries = ["rf", "lr", "lr"] ∧
    ∃ chart, processData (mappingResponse twoDatasetEntries) .bar .f1_score
        = .ok (some chart) ∧
      chart.datasets.map (fun s => s.label) = [.str "RF", .str "LR"] := by
  refine ⟨by decide, rfl, rfl, ?_⟩
  obtain ⟨hall, hex, -⟩ := multi_chart_series_first_seen twoDatasetEntries
    .f1_score (by decide) rfl
  obtain ⟨chart, hchart⟩ := hex (by decide) (by decide)
  exact ⟨chart, hchart, (hall chart hchart).2.2.trans rfl⟩

/-- C8 (as amended): in radar mode a well-formed multi-dataset response (two or more
datasets included) raises no "unsupported combination" condition: the multi-disease
branch does not read the chart style, and chart-data derivation returns exactly the chart
data of bar mode, the bar-style multi-dataset layout. -/
theorem multi_chart_ignores_radar (entries : List (String × List (String × JSValue)))
    (metric : MetricName) (hnd : (entries.map Prod.fst).Nodup)
    (hd : "disease" ∉ entries.map Prod.fst) (hr : "results" ∉ entries.map Prod.fst)
    (hwf : entries.all (fun e => wellFormedDataset e.2) = true) :
    processData (mappingResponse entries) .radar metric
      = processData (mappingResponse entries) .bar metric ∧
    processData (mappingResponse entries) .radar metric
      = .ok (some
          { labels := entries.map (fun e => jsOr (field e.2 "disease_name") (.str e.1))
            datasets := mapIdxFrom (seriesOf entries metric) 0
              (firstOccurrences (algorithmIds entries)) }) := by
  rw [processData_mappingResponse entries .radar metric hnd hd hr hwf,
    processData_mappingResponse entries .bar metric hnd hd hr hwf]
  exact ⟨rfl, rfl⟩

/-- Witness for C8: the two-dataset example in radar mode. -/
theorem multi_chart_ignores_radar_witness :
    2 ≤ twoDatasetEntries.length ∧
    processData (mappingResponse twoDatasetEntries) .radar .f1_score
      = processData (mappingResponse twoDatasetEntries) .bar .f1_score :=
  ⟨by decide,
   (multi_chart_ignores_radar twoDatasetEntries .f1_score (by decide) (by decide)
     (by decide) rfl).1⟩

/-- C8, counterexample to the claim as stated: in radar mode the two-dataset example does
not fail; it returns chart data in the bar-style multi-dataset layout (labels are the
datasets, one series per algorithm). -/
theorem radar_multi_claim_fails :
    (∀ e : JSError,
      processData (mappingResponse twoDatasetEntries) .radar .f1_score ≠ .error e) ∧
    ∃ chart, processData (mappingResponse twoDatasetEntries) .radar .f1_score
        = .ok (some chart) ∧
      chart.labels = [.str "Diabetes", .str "heart"] ∧
      chart.datasets.map (fun s => s.label) = [.str "RF", .str "LR"] ∧
      chart.datasets.map (fun s => s.data)
        = [[.num 0.86, .num 0], [.num 0.76, .num 0.66]] := by
  have h := processData_mappingResponse twoDatasetEntries .radar .f1_score (by decide)
    (by decide) (by decide) rfl
  refine ⟨?_, _, h, rfl, rfl, rfl⟩
  intro e he
  rw [h] at he
  cases he

/-! ## Single-dataset chart data -/

theorem mapIdxE_eq_ok {α β : Type} (f : α → Nat → JS β) (g : α → Nat → β)
    (l : List α) (n : Nat) (hfg : ∀ a ∈ l, ∀ i, f a i = .ok (g a i)) :
    mapIdxE f n l = .ok (mapIdxFrom g n l) := by
  induction l generalizing n with
  | nil => rfl
  | cons a l ih =>
    have ha := hfg a (List.mem_cons_self a l)
    have hl := fun m => ih m (fun b hb => hfg b (List.mem_cons_of_mem a hb))
    simp [mapIdxE, mapIdxFrom, ha, hl]

theorem metricField_wellFormed (r : JSValue) (h : wellFormedResult r = true) (m : String) :
    ∃ ms, getProp r "metrics" = .ok (.obj ms) ∧ getProp (.obj ms) m = .ok (metricField r m) := by
  obtain ⟨a, ms, rp, -, -, hms⟩ := wellFormedResult_spec r h
  exact ⟨ms, hms, by simp [metricField, hms, getProp_obj]⟩

theorem algorithmName_wellFormed (r : JSValue) (h : wellFormedResult r = true) :
    getProp r "algorithm_name" = .ok (algorithmNameOf r) := by
  obtain ⟨a, ms, rp, hobj, -, -⟩ := wellFormedResult_spec r h
  subst hobj
  simp [algorithmNameOf, getProp_obj]

theorem metricValue_wellFormed (metric : MetricName) (r : JSValue)
    (h : wellFormedResult r = true) : metricValue metric r = .ok (metricOf metric r) := by
  obtain ⟨a, ms, rp, -, -, hms⟩ := wellFormedResult_spec r h
  simp [metricOf, metricValue, hms, getProp_obj]

theorem metricOf_eq_metricField (metric : MetricName) (r : JSValue) :
    metricOf metric r = metricField r metric.key := by
  unfold metricOf metricValue metricField
  cases getProp r "metrics" with
  | error e => rfl
  | ok ms => rfl

theorem singleMetrics_cons (r : JSValue) (rs : List JSValue)
    (h : wellFormedResult r = true) :
    singleMetrics (.arr (r :: rs)) = .ok (radarMetrics r) := by
  obtain ⟨ms, hms, hroc⟩ := metricField_wellFormed r h "roc_auc"
  have h0 : getProp (.arr (r :: rs)) "0" = .ok r := rfl
  simp only [singleMetrics, h0, hms, hroc, radarMetrics]
  split <;> rfl

theorem radarSeries_wellFormed (metrics : List String) (r : JSValue) (index : Nat)
    (h : wellFormedResult r = true) :
    radarSeries metrics r index = .ok (radarSeriesOf metrics r index) := by
  have hdata : mapE (fun m =>
      match getProp r "metrics" with
      | .error e => .error e
      | .ok ms =>
        match getProp ms m with
        | .error e => .error e
        | .ok v => .ok (jsOr v (.num 0))) metrics
      = .ok (metrics.map (fun m => jsOr (metricField r m) (.num 0))) := by
    apply mapE_eq_ok_map
    intro m _
    obtain ⟨ms, hms, hm⟩ := metricField_wellFormed r h m
    simp only [hms, hm]
  simp only [radarSeries, algorithmName_wellFormed r h, hdata, radarSeriesOf]

theorem branches_of_results_array (props : List (String × JSValue)) (items : List JSValue)
    (hres : field props "results" = .arr items) :
    isMultiDiseaseChart (.obj props) = .ok false ∧ isSingleDisease (.obj props) = .ok true := by
  constructor
  · simp only [isMultiDiseaseChart, typeofObject, getProp_obj, hres]
    split <;> simp [truthy]
  · simp [isSingleDisease, truthy_obj, getProp_obj, hres, truthy]

theorem processData_single_radar (props : List (String × JSValue)) (r : JSValue)
    (rs : List JSValue) (metric : MetricName)
    (hres : field props "results" = .arr (r :: rs))
    (hwf : (r :: rs).all wellFormedResult = true) :
    processData (.obj props) .radar metric
      = .ok (some
          { labels := (radarMetrics r).map (fun m => .str (formatLabel m))
            datasets := mapIdxFrom (radarSeriesOf (radarMetrics r)) 0 (r :: rs) }) := by
  obtain ⟨hm, hs⟩ := branches_of_results_array props (r :: rs) hres
  have hr : wellFormedResult r = true := List.all_eq_true.1 hwf r (List.mem_cons_self r rs)
  have hseries := mapIdxE_eq_ok (radarSeries (radarMetrics r)) (radarSeriesOf (radarMetrics r))
    (r :: rs) 0 (fun x hx i => radarSeries_wellFormed _ x i (List.all_eq_true.1 hwf x hx))
  simp only [processData, hm, hs, singleDiseaseChart, getProp_obj, hres,
    singleMetrics_cons r rs hr, asArray, hseries, if_true]

theorem processData_single_bar (props : List (String × JSValue)) (r : JSValue)
    (rs : List JSValue) (metric : MetricName)
    (hres : field props "results" = .arr (r :: rs))
    (hwf : (r :: rs).all wellFormedResult = true) :
    processData (.obj props) .bar metric
      = .ok (some
          { labels := (r :: rs).map algorithmNameOf
            datasets := [barSeriesOf metric (r :: rs)] }) := by
  obtain ⟨hm, hs⟩ := branches_of_results_array props (r :: rs) hres
  have hr : wellFormedResult r = true := List.all_eq_true.1 hwf r (List.mem_cons_self r rs)
  have hlabels : mapE (fun result => getProp result "algorithm_name") (r :: rs)
      = .ok ((r :: rs).map algorithmNameOf) :=
    mapE_eq_ok_map _ _ _ (fun x hx => algorithmName_wellFormed x (List.all_eq_true.1 hwf x hx))
  have hdata : mapE (metricValue metric) (r :: rs) = .ok ((r :: rs).map (metricOf metric)) :=
    mapE_eq_ok_map _ _ _ (fun x hx => metricValue_wellFormed metric x
      (List.all_eq_true.1 hwf x hx))
  have hbar : (ChartType.bar = ChartType.radar) = False := by simp
  simp only [processData, hm, hs, singleDiseaseChart, getProp_obj, hres,
    singleMetrics_cons r rs hr, asArray, hlabels, hdata, hbar, if_false, barSeriesOf]

theorem truthy_num_of_ne_zero (q : ℚ) (h : q ≠ 0) : truthy (.num q) = true := by
  simp [truthy, h]

theorem jsOr_num_of_ne_zero (q : ℚ) (b : JSValue) (h : q ≠ 0) : jsOr (.num q) b = .num q := by
  simp [jsOr, truthy, h]

theorem jsOr_undefined (b : JSValue) : jsOr .undefined b = b := rfl

/-- C9 (as amended): in radar mode, for a single-dataset response with at least one
result, chart-data derivation succeeds; the axis metric list is
`[accuracy, precision, recall, f1_score]`, followed by `roc_auc` if and only if the first
result's `metrics.roc_auc` is truthy; there is one series per result, in order, and each
holds that result's metric values over exactly this list, every falsy value (a missing
metric, or `0`) being replaced by `0`. -/
theorem radar_single_chart (props : List (String × JSValue)) (r : JSValue)
    (rs : List JSValue) (metric : MetricName)
    (hres : field props "results" = .arr (r :: rs))
    (hwf : (r :: rs).all wellFormedResult = true) :
    ∃ chart, processData (.obj props) .radar metric = .ok (some chart) ∧
      chart.labels = (radarMetrics r).map (fun m => .str (formatLabel m)) ∧
      (radarMetrics r = ["accuracy", "precision", "recall", "f1_score", "roc_auc"]
        ↔ truthy (metricField r "roc_auc") = true) ∧
      (radarMetrics r = ["accuracy", "precision", "recall", "f1_score"]
        ↔ truthy (metricField r "roc_auc") = false) ∧
      chart.datasets.length = (r :: rs).length ∧
      chart.datasets.map (fun s => s.label) = (r :: rs).map algorithmNameOf ∧
      chart.datasets.map (fun s => s.data)
        = (r :: rs).map (fun x =>
            (radarMetrics r).map (fun m => jsOr (metricField x m) (.num 0))) := by
  refine ⟨_, processData_single_radar props r rs metric hres hwf, rfl, ?_, ?_, ?_, ?_, ?_⟩
  · unfold radarMetrics
    cases truthy (metricField r "roc_auc") <;> simp
  · unfold radarMetrics
    cases truthy (metricField r "roc_auc") <;> simp
  · exact length_mapIdxFrom _ _ _
  · exact map_mapIdxFrom (radarSeriesOf (radarMetrics r)) (fun s => s.label) algorithmNameOf
      (r :: rs) 0 (fun a i => rfl)
  · exact map_mapIdxFrom (radarSeriesOf (radarMetrics r)) (fun s => s.data)
      (fun x => (radarMetrics r).map (fun m => jsOr (metricField x m) (.num 0)))
      (r :: rs) 0 (fun a i => rfl)

theorem radarMetrics_diabetesResult :
    radarMetrics diabetesResult = ["accuracy", "precision", "recall", "f1_score"] := rfl

/-- Witness for C9: the Diabetes example, whose result has no `roc_auc`, has the four
fixed axes and one series holding its four values. -/
theorem radar_single_chart_witness :
    field diabetesProps "results" = .arr [diabetesResult] ∧
    ∃ chart, processData diabetesResponse .radar .f1_score = .ok (some chart) ∧
      chart.labels = [.str "ACCURACY", .str "PRECISION", .str "RECALL", .str "F1 SCORE"] ∧
      chart.datasets.map (fun s => s.data) = [[.num 0.9, .num 0.85, .num 0.88, .num 0.86]] := by
  refine ⟨rfl, ?_⟩
  obtain ⟨chart, hchart, hlabels, -, -, -, -, hdata⟩ :=
    radar_single_chart diabetesProps diabetesResult [] .f1_score rfl rfl
  refine ⟨chart, hchart, hlabels.trans rfl, ?_⟩
  rw [hdata, radarMetrics_diabetesResult]
  have h1 : metricField diabetesResult "accuracy" = .num 0.9 := rfl
  have h2 : metricField diabetesResult "precision" = .num 0.85 := rfl
  have h3 : metricField diabetesResult "recall" = .num 0.88 := rfl
  have h4 : metricField diabetesResult "f1_score" = .num 0.86 := rfl
  simp only [List.map_cons, List.map_nil, h1, h2, h3, h4]
  rw [jsOr_num_of_ne_zero _ _ (by norm_num), jsOr_num_of_ne_zero _ _ (by norm_num),
    jsOr_num_of_ne_zero _ _ (by norm_num), jsOr_num_of_ne_zero _ _ (by norm_num)]

theorem radarMetrics_rocDefinedResult :
    radarMetrics rocDefinedResult
      = ["accuracy", "precision", "recall", "f1_score", "roc_auc"] := by
  have h : metricField rocDefinedResult "roc_auc" = .num 0.95 := rfl
  simp only [radarMetrics, h, truthy_num_of_ne_zero (0.95 : ℚ) (by norm_num), if_true]

/-- C9, counterexample to the claim as stated: the first result defines `roc_auc` and the
second does not. The axis list still ends with `roc_auc`, although not every result
defines it, and the second series holds a substituted `0` on that axis. -/
theorem radar_claim_fails :
    metricField rocMissingResult "roc_auc" = .undefined ∧
    ∃ chart, processData (.obj mixedRocProps) .radar .f1_score = .ok (some chart) ∧
      chart.labels = [.str "ACCURACY", .str "PRECISION", .str "RECALL", .str "F1 SCORE",
        .str "ROC AUC"] ∧
      chart.datasets.map (fun s => s.data)
        = [ [.num 0.9, .num 0.85, .num 0.88, .num 0.86, .num 0.95],
            [.num 0.8, .num 0.75, .num 0.78, .num 0.76, .num 0] ] := by
  refine ⟨rfl, ?_⟩
  have hchart := processData_single_radar mixedRocProps rocDefinedResult [rocMissingResult]
    .f1_score rfl rfl
  refine ⟨_, hchart, ?_, ?_⟩
  · simp only [radarMetrics_rocDefinedResult]
    rfl
  · simp only [radarMetrics_rocDefinedResult, mapIdxFrom, List.map_cons, List.map_nil,
      radarSeriesOf]
    have a1 : metricField rocDefinedResult "accuracy" = .num 0.9 := rfl
    have a2 : metricField rocDefinedResult "precision" = .num 0.85 := rfl
    have a3 : metricField rocDefinedResult "recall" = .num 0.88 := rfl
    have a4 : metricField rocDefinedResult "f1_score" = .num 0.86 := rfl
    have a5 : metricField rocDefinedResult "roc_auc" = .num 0.95 := rfl
    have b1 : metricField rocMissingResult "accuracy" = .num 0.8 := rfl
    have b2 : metricField rocMissingResult "precision" = .num 0.75 := rfl
    have b3 : metricField rocMissingResult "recall" = .num 0.78 := rfl
    have b4 : metricField rocMissingResult "f1_score" = .num 0.76 := rfl
    have b5 : metricField rocMissingResult "roc_auc" = .undefined := rfl
    rw [a1, a2, a3, a4, a5, b1, b2, b3, b4, b5, jsOr_undefined]
    rw [jsOr_num_of_ne_zero _ _ (by norm_num), jsOr_num_of_ne_zero _ _ (by norm_num),
      jsOr_num_of_ne_zero _ _ (by norm_num), jsOr_num_of_ne_zero _ _ (by norm_num),
      jsOr_num_of_ne_zero _ _ (by norm_num), jsOr_num_of_ne_zero _ _ (by norm_num),
      jsOr_num_of_ne_zero _ _ (by norm_num), jsOr_num_of_ne_zero _ _ (by norm_num),
      jsOr_num_of_ne_zero _ _ (by norm_num)]

/-- C10: in bar mode, for a single-dataset response with a non-empty result sequence and
any chosen metric, chart-data derivation succeeds with exactly one series; the labels are
the results' `algorithm_name` values in sequence order, and the series data are the
results' `metrics[metric]` values in the same order, one per result. -/
theorem bar_single_chart (props : List (String × JSValue)) (r : JSValue)
    (rs : List JSValue) (metric : MetricName)
    (hres : field props "results" = .arr (r :: rs))
    (hwf : (r :: rs).all wellFormedResult = true) :
    ∃ chart series, processData (.obj props) .bar metric = .ok (some chart) ∧
      chart.datasets = [series] ∧
      chart.labels = (r :: rs).map algorithmNameOf ∧
      series.data = (r :: rs).map (fun x => metricField x metric.key) ∧
      chart.labels.length = (r :: rs).length ∧
      series.data.length = (r :: rs).length := by
  refine ⟨_, _, processData_single_bar props r rs metric hres hwf, rfl, rfl, ?_, ?_, ?_⟩
  · simp only [barSeriesOf]
    exact List.map_congr_left (fun x _ => metricOf_eq_metricField metric x)
  · simp
  · simp [barSeriesOf]

/-- Witness for C10: the Diabetes / Random Forest example with metric `f1_score` yields
labels `["Random Forest"]` and data `[0.86]`. -/
theorem bar_single_chart_witness :
    field diabetesProps "results" = .arr [diabetesResult] ∧
    ∃ chart series, processData diabetesResponse .bar .f1_score = .ok (some chart) ∧
      chart.datasets = [series] ∧
      chart.labels = [.str "Random Forest"] ∧
      series.data = [.num 0.86] := by
  refine ⟨rfl, ?_⟩
  obtain ⟨chart, series, hchart, hsingle, hlabels, hdata, -⟩ :=
    bar_single_chart diabetesProps diabetesResult [] .f1_score rfl rfl
  exact ⟨chart, series, hchart, hsingle, hlabels.trans rfl, hdata.trans rfl⟩

/-! ## Label formatting -/

theorem map_underscore_of_not_mem (cs : List Char) (h : '_' ∉ cs) :
    cs.map (fun c => if c = '_' then ' ' else c) = cs := by
  induction cs with
  | nil => rfl
  | cons c t ih =>
    simp only [List.mem_cons, not_or] at h
    have hc : ¬ c = '_' := fun e => h.1 e.symm
    simp [hc, ih h.2]

theorem replaceFirstChars_underscore (cs : List Char) (h : cs.count '_' ≤ 1) :
    replaceFirstChars ['_'] [' '] cs = cs.map (fun c => if c = '_' then ' ' else c) := by
  induction cs with
  | nil => simp [replaceFirstChars]
  | cons c t ih =>
    by_cases hc : c = '_'
    · subst hc
      have ht : '_' ∉ t := by
        intro hmem
        have := List.count_pos_iff.2 hmem
        simp only [List.count_cons_self] at h
        omega
      simp [replaceFirstChars, List.isPrefixOf, map_underscore_of_not_mem t ht]
    · have hc2 : ¬ '_' = c := fun e => hc e.symm
      have hcount : t.count '_' ≤ 1 := by
        rw [List.count_cons_of_ne hc2] at h
        exact h
      simp [replaceFirstChars, List.isPrefixOf, hc, hc2, ih hcount]

/-- A string with at most one underscore is formatted as the specification says. -/
theorem formatLabel_of_count_le_one (s : String) (h : s.data.count '_' ≤ 1) :
    formatLabel s = specLabel s := by
  have hr : replaceFirst s "_" " " = replaceUnderscores s := by
    simp only [replaceFirst, replaceUnderscores]
    exact congrArg String.mk (replaceFirstChars_underscore s.data h)
  simp only [formatLabel, specLabel, hr]

/-- C11, evaluation at the failing input: `replace('_', ' ')` replaces the first
underscore only. The algorithm identifier `k_nearest_neighbors` is displayed as
`K NEAREST_NEIGHBORS`, also as the legend text of its series in multi-dataset mode, where
the claim gives `K NEAREST NEIGHBORS`. Strings with at most one underscore, among them
all five metric names, are displayed as the claim says, and the metric values are looked
up under the unchanged key. -/
theorem formatLabel_second_underscore_kept :
    formatLabel "k_nearest_neighbors" = "K NEAREST_NEIGHBORS" ∧
    specLabel "k_nearest_neighbors" = "K NEAREST NEIGHBORS" ∧
    (∃ chart, processData (mappingResponse underscoreEntries) .bar .f1_score
        = .ok (some chart) ∧
      chart.datasets.map (fun s => s.label) = [.str "K NEAREST_NEIGHBORS"]) ∧
    (∀ s : String, s.data.count '_' ≤ 1 → formatLabel s = specLabel s) ∧
    (∀ m : MetricName, formatLabel m.key = specLabel m.key) ∧
    (∀ (m : MetricName) (rs : List JSValue),
      (barSeriesOf m rs).label = .str (formatLabel m.key) ∧
      (barSeriesOf m rs).data = rs.map (fun x => metricField x m.key)) := by
  refine ⟨rfl, rfl, ?_, formatLabel_of_count_le_one, ?_, ?_⟩
  · exact ⟨_, processData_mappingResponse underscoreEntries .bar .f1_score (by decide)
      (by decide) (by decide) rfl, rfl⟩
  · intro m
    cases m <;> rfl
  · intro m rs
    refine ⟨rfl, ?_⟩
    simp only [barSeriesOf]
    exact List.map_congr_left (fun x _ => metricOf_eq_metricField m x)

/-! ## The compare action -/

/-- C12: in every application state whose selected-diseases list or selected-algorithms
list is empty, the compare action performs exactly one step, setting the error message to
"Please select at least one disease and one algorithm": it issues no HTTP request, and
the resulting state differs from the previous one in the error message only, so results
and loading state are unchanged. -/
theorem handleCompare_empty_selection (transport : Transport) (s : AppState)
    (h : s.selectedDiseases = [] ∨ s.selectedAlgorithms = []) :
    handleCompare transport s
      = [.setError (some "Please select at least one disease and one algorithm")] ∧
    (∀ request, Effect.http request ∉ handleCompare transport s) ∧
    applyEffects s (handleCompare transport s)
      = { s with error := some "Please select at least one disease and one algorithm" } ∧
    (applyEffects s (handleCompare transport s)).results = s.results ∧
    (applyEffects s (handleCompare transport s)).loading = s.loading := by
  have hcond : s.selectedDiseases.length = 0 ∨ s.selectedAlgorithms.length = 0 := by
    rcases h with h | h
    · exact Or.inl (by rw [h]; rfl)
    · exact Or.inr (by rw [h]; rfl)
  have hrun : handleCompare transport s
      = [.setError (some "Please select at least one disease and one algorithm")] := by
    simp only [handleCompare, hcond, if_true]
  refine ⟨hrun, ?_, ?_, ?_, ?_⟩
  · intro request hmem
    rw [hrun] at hmem
    simp at hmem
  · rw [hrun]; rfl
  · rw [hrun]; rfl
  · rw [hrun]; rfl

/-- Witness for C12: the state before any selection was made. -/
theorem handleCompare_empty_selection_witness :
    initialState.selectedDiseases = [] ∧
    handleCompare (fun _ => none) initialState
      = [.setError (some "Please select at least one disease and one algorithm")] :=
  ⟨rfl, (handleCompare_empty_selection (fun _ => none) initialState (Or.inl rfl)).1⟩

/-! ## Request defaults -/

theorem jsOr_num_zero (b : JSValue) : jsOr (.num 0) b = b := by
  simp [jsOr, truthy]

theorem trainBody_obj (disease algorithms : JSValue) (ps : List (String × JSValue)) :
    trainBody disease algorithms (.obj ps)
      = .ok (.obj [ ("disease", disease), ("algorithms", algorithms),
                    ("test_size", jsOr (field ps "testSize") (.num 0.2)),
                    ("random_state", jsOr (field ps "randomState") (.num 42)) ]) := rfl

theorem compareBody_obj (diseases algorithms : JSValue) (ps : List (String × JSValue)) :
    compareBody diseases algorithms (.obj ps)
      = .ok (.obj [ ("diseases", diseases), ("algorithms", algorithms),
                    ("test_size", jsOr (field ps "testSize") (.num 0.2)),
                    ("random_state", jsOr (field ps "randomState") (.num 42)) ]) := rfl

/-- C13, evaluation at the failing input: `options.randomState || 42` and
`options.testSize || 0.2` treat a supplied `0` as omitted. With `randomState: 0` the body
of `trainModels` and of `compareModels` carries `random_state: 42`, and with
`testSize: 0` it carries `test_size: 0.2`, where the claim says the supplied value is
carried unchanged. When the options are omitted the body carries `0.2` and `42`, and a
supplied number other than `0` is carried unchanged. -/
theorem request_defaults_replace_zero :
    (∀ (transport : Transport) (disease algorithms : JSValue),
      (trainModels transport disease algorithms (.obj [("randomState", .num 0)])).requests
        = [.post "/train" (.obj [ ("disease", disease), ("algorithms", algorithms),
            ("test_size", .num 0.2), ("random_state", .num 42) ])]) ∧
    (∀ (transport : Transport) (diseases algorithms : JSValue),
      (compareModels transport diseases algorithms (.obj [("randomState", .num 0)])).requests
        = [.post "/compare" (.obj [ ("diseases", diseases), ("algorithms", algorithms),
            ("test_size", .num 0.2), ("random_state", .num 42) ])]) ∧
    (∀ (disease algorithms : JSValue),
      trainBody disease algorithms (.obj [("testSize", .num 0), ("randomState", .num 7)])
        = .ok (.obj [ ("disease", disease), ("algorithms", algorithms),
            ("test_size", .num 0.2), ("random_state", .num 7) ])) ∧
    (∀ (disease algorithms : JSValue),
      trainBody disease algorithms .undefined
        = .ok (.obj [ ("disease", disease), ("algorithms", algorithms),
            ("test_size", .num 0.2), ("random_state", .num 42) ]) ∧
      compareBody disease algorithms .undefined
        = .ok (.obj [ ("diseases", disease), ("algorithms", algorithms),
            ("test_size", .num 0.2), ("random_state", .num 42) ])) ∧
    (∀ (disease algorithms : JSValue) (ps : List (String × JSValue)) (t q : ℚ),
      t ≠ 0 → q ≠ 0 →
      lookupProp "testSize" ps = some (.num t) → lookupProp "randomState" ps = some (.num q) →
      trainBody disease algorithms (.obj ps)
        = .ok (.obj [ ("disease", disease), ("algorithms", algorithms),
            ("test_size", .num t), ("random_state", .num q) ]) ∧
      compareBody disease algorithms (.obj ps)
        = .ok (.obj [ ("diseases", disease), ("algorithms", algorithms),
            ("test_size", .num t), ("random_state", .num q) ])) := by
  have hzero : jsOr (.num 0) (.num 42) = .num 42 := jsOr_num_zero _
  have hzero2 : jsOr (.num 0) (.num 0.2) = .num 0.2 := jsOr_num_zero _
  have hseven : jsOr (.num 7) (.num 42) = .num 7 := jsOr_num_of_ne_zero _ _ (by norm_num)
  have hts : field [("randomState", JSValue.num 0)] "testSize" = .undefined := rfl
  have hrs : field [("randomState", JSValue.num 0)] "randomState" = .num 0 := rfl
  refine ⟨?_, ?_, ?_, ?_, ?_⟩
  · intro transport disease algorithms
    simp only [trainModels, trainBody_obj, postJson, hts, hrs, hzero, jsOr_undefined]
  · intro transport diseases algorithms
    simp only [compareModels, compareBody_obj, postJson, hts, hrs, hzero, jsOr_undefined]
  · intro disease algorithms
    have h1 : field [("testSize", JSValue.num 0), ("randomState", JSValue.num 7)] "testSize"
        = .num 0 := rfl
    have h2 : field [("testSize", JSValue.num 0), ("randomState", JSValue.num 7)] "randomState"
        = .num 7 := rfl
    simp only [trainBody_obj, h1, h2, hzero2, hseven]
  · intro disease algorithms
    exact ⟨rfl, rfl⟩
  · intro disease algorithms ps t q ht hq hlt hlq
    have h1 : field ps "testSize" = .num t := by simp [field, hlt]
    have h2 : field ps "randomState" = .num q := by simp [field, hlq]
    simp only [trainBody_obj, compareBody_obj, h1, h2, jsOr_num_of_ne_zero _ _ ht,
      jsOr_num_of_ne_zero _ _ hq]
    exact ⟨trivial, trivial⟩

/-! ## Colours -/

theorem palette_entry (k : Fin algorithmColors.length) :
    algorithmColors.get k = rgbaText (paletteChannels.getD k.val (0, 0, 0)) "0.7" ∧
    replaceFirst (algorithmColors.get k) "0.7" "1"
      = rgbaText (paletteChannels.getD k.val (0, 0, 0)) "1" ∧
    replaceFirst (algorithmColors.get k) "0.7" "0.2"
      = rgbaText (paletteChannels.getD k.val (0, 0, 0)) "0.2" := by
  revert k
  decide

theorem colorAt_channels (i : Nat) :
    colorAt i = rgbaText (channelsAt i) "0.7" ∧
    replaceFirst (colorAt i) "0.7" "1" = rgbaText (channelsAt i) "1" ∧
    replaceFirst (colorAt i) "0.7" "0.2" = rgbaText (channelsAt i) "0.2" :=
  palette_entry ⟨i % algorithmColors.length, Nat.mod_lt _ (by decide)⟩

theorem colorAt_add_seven (i : Nat) : colorAt (i + 7) = colorAt i := by
  unfold colorAt
  congr 1
  exact Fin.ext (Nat.add_mod_right i 7)

theorem map_mapIdxFrom_index {α β γ : Type} (g : α → Nat → β) (p : β → γ) (q : Nat → γ)
    (l : List α) (n : Nat) (hpq : ∀ a i, p (g a i) = q i) :
    (mapIdxFrom g n l).map p = (List.range' n l.length).map q := by
  induction l generalizing n with
  | nil => rfl
  | cons a l ih => simp [mapIdxFrom, hpq, ih, List.range'_succ]

/-- The colours `algorithmSeries` puts in the series it returns (ComparisonChart.js:77-78). -/
theorem algorithmSeries_colors (results : JSValue) (diseases : List String)
    (metric : MetricName) (algorithm : JSValue) (index : Nat) (series : ChartDataset)
    (h : algorithmSeries results diseases metric algorithm index = .ok series) :
    series.backgroundColor = .str (colorAt index) ∧
    series.borderColor = .str (replaceFirst (colorAt index) "0.7" "1") := by
  unfold algorithmSeries at h
  split at h
  · cases h
  · split at h
    · cases h
    · simp only [Except.ok.injEq] at h
      subst h
      exact ⟨rfl, rfl⟩

/-- The colours `radarSeries` puts in the series it returns (ComparisonChart.js:102-108). -/
theorem radarSeries_colors (metrics : List String) (result : JSValue) (index : Nat)
    (series : ChartDataset) (h : radarSeries metrics result index = .ok series) :
    series.backgroundColor = .str (replaceFirst (colorAt index) "0.7" "0.2") ∧
    series.borderColor = .str (replaceFirst (colorAt index) "0.7" "1") ∧
    series.pointBackgroundColor = .str (replaceFirst (colorAt index) "0.7" "1") ∧
    series.pointHoverBorderColor = .str (replaceFirst (colorAt index) "0.7" "1") := by
  unfold radarSeries at h
  split at h
  · cases h
  · split at h
    · cases h
    · simp only [Except.ok.injEq] at h
      subst h
      exact ⟨rfl, rfl, rfl, rfl⟩

/-- C14: for every position `i`, the colours derived for it have the red, green and blue
channels of palette entry `i mod 7` of the seven-colour palette: the bar fill is that
entry at alpha `0.7`, the border is the same channels at alpha `1`, and the radar fill is
the same channels at alpha `0.2`; positions `i` and `i + 7` get identical colours. This
holds for the colours that `algorithmSeries` and `radarSeries` put in the series they
return at position `i`, and for the colours in the chart data that `processData` returns:
the k-th series of multi-dataset mode, the k-th radar series, and the k-th entry of the
colour arrays of the single-dataset bar series carry the colours of position `k`. -/
theorem colors_follow_palette (i : Nat) :
    algorithmColors.length = 7 ∧
    colorAt i = rgbaText (channelsAt i) "0.7" ∧
    replaceFirst (colorAt i) "0.7" "1" = rgbaText (channelsAt i) "1" ∧
    replaceFirst (colorAt i) "0.7" "0.2" = rgbaText (channelsAt i) "0.2" ∧
    channelsAt (i + 7) = channelsAt i ∧
    colorAt (i + 7) = colorAt i ∧
    (∀ (entries : List (String × List (String × JSValue))) (metric : MetricName) (a : String),
      (seriesOf entries metric a i).backgroundColor = .str (rgbaText (channelsAt i) "0.7") ∧
      (seriesOf entries metric a i).borderColor = .str (rgbaText (channelsAt i) "1")) ∧
    (∀ (metrics : List String) (r : JSValue),
      (radarSeriesOf metrics r i).backgroundColor = .str (rgbaText (channelsAt i) "0.2") ∧
      (radarSeriesOf metrics r i).borderColor = .str (rgbaText (channelsAt i) "1")) ∧
    (∀ (metric : MetricName) (rs : List JSValue),
      (barSeriesOf metric rs).backgroundColor
        = .arr ((List.range rs.length).map (fun k => .str (rgbaText (channelsAt k) "0.7"))) ∧
      (barSeriesOf metric rs).borderColor
        = .arr ((List.range rs.length).map (fun k => .str (rgbaText (channelsAt k) "1")))) ∧
    (∀ (results : JSValue) (diseases : List String) (metric : MetricName)
        (algorithm : JSValue) (series : ChartDataset),
      algorithmSeries results diseases metric algorithm i = .ok series →
      series.backgroundColor = .str (rgbaText (channelsAt i) "0.7") ∧
      series.borderColor = .str (rgbaText (channelsAt i) "1")) ∧
    (∀ (metrics : List String) (result : JSValue) (series : ChartDataset),
      radarSeries metrics result i = .ok series →
      series.backgroundColor = .str (rgbaText (channelsAt i) "0.2") ∧
      series.borderColor = .str (rgbaText (channelsAt i) "1") ∧
      series.pointBackgroundColor = .str (rgbaText (channelsAt i) "1") ∧
      series.pointHoverBorderColor = .str (rgbaText (channelsAt i) "1")) ∧
    (∀ (entries : List (String × List (String × JSValue))) (chartType : ChartType)
        (metric : MetricName),
      (entries.map Prod.fst).Nodup →
      "disease" ∉ entries.map Prod.fst → "results" ∉ entries.map Prod.fst →
      entries.all (fun e => wellFormedDataset e.2) = true →
      ∃ chart, processData (mappingResponse entries) chartType metric = .ok (some chart) ∧
        chart.datasets.length = (firstOccurrences (algorithmIds entries)).length ∧
        chart.datasets.map (fun s => s.backgroundColor)
          = (List.range (firstOccurrences (algorithmIds entries)).length).map
              (fun k => .str (rgbaText (channelsAt k) "0.7")) ∧
        chart.datasets.map (fun s => s.borderColor)
          = (List.range (firstOccurrences (algorithmIds entries)).length).map
              (fun k => .str (rgbaText (channelsAt k) "1"))) ∧
    (∀ (props : List (String × JSValue)) (r : JSValue) (rs : List JSValue)
        (metric : MetricName),
      field props "results" = .arr (r :: rs) →
      (r :: rs).all wellFormedResult = true →
      ∃ chart, processData (.obj props) .radar metric = .ok (some chart) ∧
        chart.datasets.length = (r :: rs).length ∧
        chart.datasets.map (fun s => s.backgroundColor)
          = (List.range (r :: rs).length).map
              (fun k => .str (rgbaText (channelsAt k) "0.2")) ∧
        chart.datasets.map (fun s => s.borderColor)
          = (List.range (r :: rs).length).map
              (fun k => .str (rgbaText (channelsAt k) "1"))) ∧
    (∀ (props : List (String × JSValue)) (r : JSValue) (rs : List JSValue)
        (metric : MetricName),
      field props "results" = .arr (r :: rs) →
      (r :: rs).all wellFormedResult = true →
      ∃ chart series, processData (.obj props) .bar metric = .ok (some chart) ∧
        chart.datasets = [series] ∧
        series.backgroundColor
          = .arr ((List.range (r :: rs).length).map
              (fun k => .str (rgbaText (channelsAt k) "0.7"))) ∧
        series.borderColor
          = .arr ((List.range (r :: rs).length).map
              (fun k => .str (rgbaText (channelsAt k) "1")))) := by
  obtain ⟨h1, h2, h3⟩ := colorAt_channels i
  have hbar : ∀ (metric : MetricName) (rs : List JSValue),
      (barSeriesOf metric rs).backgroundColor
        = .arr ((List.range rs.length).map (fun k => .str (rgbaText (channelsAt k) "0.7"))) ∧
      (barSeriesOf metric rs).borderColor
        = .arr ((List.range rs.length).map
            (fun k => .str (rgbaText (channelsAt k) "1"))) := by
    intro metric rs
    simp only [barSeriesOf]
    constructor
    · exact congrArg JSValue.arr
        (List.map_congr_left (fun k _ => congrArg JSValue.str (colorAt_channels k).1))
    · exact congrArg JSValue.arr
        (List.map_congr_left (fun k _ => congrArg JSValue.str (colorAt_channels k).2.1))
  refine ⟨rfl, h1, h2, h3, ?_, colorAt_add_seven i, ?_, ?_, hbar, ?_, ?_, ?_, ?_, ?_⟩
  · simp [channelsAt, Nat.add_mod_right]
  · intro entries metric a
    exact ⟨congrArg JSValue.str h1, congrArg JSValue.str h2⟩
  · intro metrics r
    exact ⟨congrArg JSValue.str h3, congrArg JSValue.str h2⟩
  · intro results diseases metric algorithm series hseries
    obtain ⟨hb, hc⟩ := algorithmSeries_colors results diseases metric algorithm i series
      hseries
    rw [hb, hc]
    exact ⟨congrArg JSValue.str h1, congrArg JSValue.str h2⟩
  · intro metrics result series hseries
    obtain ⟨hb, hc, hp, hh⟩ := radarSeries_colors metrics result i series hseries
    rw [hb, hc, hp, hh]
    exact ⟨congrArg JSValue.str h3, congrArg JSValue.str h2, congrArg JSValue.str h2,
      congrArg JSValue.str h2⟩
  · intro entries chartType metric hnd hd hr hwf
    refine ⟨_, processData_mappingResponse entries chartType metric hnd hd hr hwf,
      length_mapIdxFrom _ _ _, ?_, ?_⟩
    · rw [List.range_eq_range']
      exact map_mapIdxFrom_index (seriesOf entries metric) (fun s => s.backgroundColor)
        (fun k => JSValue.str (rgbaText (channelsAt k) "0.7")) _ 0
        (fun a k => congrArg JSValue.str (colorAt_channels k).1)
    · rw [List.range_eq_range']
      exact map_mapIdxFrom_index (seriesOf entries metric) (fun s => s.borderColor)
        (fun k => JSValue.str (rgbaText (channelsAt k) "1")) _ 0
        (fun a k => congrArg JSValue.str (colorAt_channels k).2.1)
  · intro props r rs metric hres hwf
    refine ⟨_, processData_single_radar props r rs metric hres hwf,
      length_mapIdxFrom _ _ _, ?_, ?_⟩
    · rw [List.range_eq_range']
      exact map_mapIdxFrom_index (radarSeriesOf (radarMetrics r))
        (fun s => s.backgroundColor)
        (fun k => JSValue.str (rgbaText (channelsAt k) "0.2")) _ 0
        (fun a k => congrArg JSValue.str (colorAt_channels k).2.2)
    · rw [List.range_eq_range']
      exact map_mapIdxFrom_index (radarSeriesOf (radarMetrics r)) (fun s => s.borderColor)
        (fun k => JSValue.str (rgbaText (channelsAt k) "1")) _ 0
        (fun a k => congrArg JSValue.str (colorAt_channels k).2.1)
  · intro props r rs metric hres hwf
    exact ⟨_, _, processData_single_bar props r rs metric hres hwf, rfl,
      (hbar metric (r :: rs)).1, (hbar metric (r :: rs)).2⟩

/-- Witness for C14: position 8 gets palette entry 1 (`255, 99, 132`) at the three
alphas, and the two series of the two-dataset example get palette entries 0 and 1. -/
theorem colors_follow_palette_witness :
    colorAt 8 = "rgba(255, 99, 132, 0.7)" ∧
    replaceFirst (colorAt 8) "0.7" "1" = "rgba(255, 99, 132, 1)" ∧
    replaceFirst (colorAt 8) "0.7" "0.2" = "rgba(255, 99, 132, 0.2)" ∧
    (∃ chart, processData (mappingResponse twoDatasetEntries) .bar .f1_score
        = .ok (some chart) ∧
      chart.datasets.map (fun s => s.backgroundColor)
        = [.str "rgba(54, 162, 235, 0.7)", .str "rgba(255, 99, 132, 0.7)"] ∧
      chart.datasets.map (fun s => s.borderColor)
        = [.str "rgba(54, 162, 235, 1)", .str "rgba(255, 99, 132, 1)"]) ∧
    (∃ chart, processData diabetesResponse .radar .f1_score = .ok (some chart) ∧
      chart.datasets.map (fun s => s.backgroundColor) = [.str "rgba(54, 162, 235, 0.2)"] ∧
      chart.datasets.map (fun s => s.borderColor) = [.str "rgba(54, 162, 235, 1)"]) := by
  obtain ⟨-, h1, h2, h3, -, -, -, -, -, -, -, hmulti, hradar, -⟩ := colors_follow_palette 8
  refine ⟨h1.trans rfl, h2.trans rfl, h3.trans rfl, ?_, ?_⟩
  · obtain ⟨chart, hchart, -, hbg, hborder⟩ := hmulti twoDatasetEntries .bar .f1_score
      (by decide) (by decide) (by decide) rfl
    exact ⟨chart, hchart, hbg.trans rfl, hborder.trans rfl⟩
  · obtain ⟨chart, hchart, -, hbg, hborder⟩ :=
      hradar diabetesProps diabetesResult [] .f1_score rfl rfl
    exact ⟨chart, hchart, hbg.trans rfl, hborder.trans rfl⟩

/-! ## Totality on single-dataset responses -/

theorem processData_empty_results (props : List (String × JSValue))
    (hres : field props "results" = .arr []) (chartType : ChartType) (metric : MetricName) :
    processData (.obj props) chartType metric = .error .TypeError := by
  obtain ⟨hm, hs⟩ := branches_of_results_array props [] hres
  have hmetrics : singleMetrics (.arr []) = .error .TypeError := rfl
  simp only [processData, hm, hs, singleDiseaseChart, getProp_obj, hres, hmetrics]

/-- C15 (as amended): chart-data derivation completes without an exception on every
single-dataset response whose `results` array holds at least one algorithm result, in bar
and in radar style. In bar style the labels and the data of the single series have the
length of the results. In radar style there is one series per result, and the labels and
the data of every series have the length of the axis metric list, which is 4 or 5. -/
theorem single_chart_total_nonempty (props : List (String × JSValue)) (r : JSValue)
    (rs : List JSValue) (metric : MetricName)
    (hres : field props "results" = .arr (r :: rs))
    (hwf : (r :: rs).all wellFormedResult = true) :
    (∃ chart series, processData (.obj props) .bar metric = .ok (some chart) ∧
      chart.datasets = [series] ∧
      chart.labels.length = (r :: rs).length ∧
      series.data.length = (r :: rs).length) ∧
    (∃ chart, processData (.obj props) .radar metric = .ok (some chart) ∧
      chart.datasets.length = (r :: rs).length ∧
      chart.labels.length = (radarMetrics r).length ∧
      (∀ s ∈ chart.datasets, s.data.length = (radarMetrics r).length) ∧
      ((radarMetrics r).length = 4 ∨ (radarMetrics r).length = 5)) := by
  constructor
  · refine ⟨_, _, processData_single_bar props r rs metric hres hwf, rfl, ?_, ?_⟩
    · simp
    · simp [barSeriesOf]
  · refine ⟨_, processData_single_radar props r rs metric hres hwf, ?_, ?_, ?_, ?_⟩
    · exact length_mapIdxFrom _ _ _
    · simp
    · intro s hs
      have hmap := map_mapIdxFrom (radarSeriesOf (radarMetrics r)) (fun s => s.data.length)
        (fun _ => (radarMetrics r).length) (r :: rs) 0
        (fun a i => by simp [radarSeriesOf])
      have hmem : s.data.length ∈ (mapIdxFrom (radarSeriesOf (radarMetrics r)) 0
          (r :: rs)).map (fun s => s.data.length) := List.mem_map_of_mem _ hs
      rw [hmap] at hmem
      obtain ⟨a, -, ha⟩ := List.mem_map.1 hmem
      exact ha.symm
    · unfold radarMetrics
      cases truthy (metricField r "roc_auc") <;> simp

/-- Witness for C15: the Diabetes example, with one result, in both styles. -/
theorem single_chart_total_nonempty_witness :
    field diabetesProps "results" = .arr [diabetesResult] ∧
    (∃ chart series, processData diabetesResponse .bar .f1_score = .ok (some chart) ∧
      chart.datasets = [series] ∧ chart.labels.length = 1 ∧ series.data.length = 1) ∧
    (∃ chart, processData diabetesResponse .radar .f1_score = .ok (some chart) ∧
      chart.datasets.length = 1 ∧ chart.labels.length = 4) := by
  obtain ⟨hbar, hradar⟩ :=
    single_chart_total_nonempty diabetesProps diabetesResult [] .f1_score rfl rfl
  refine ⟨rfl, hbar, ?_⟩
  obtain ⟨chart, hchart, hlen, hlabels, -⟩ := hradar
  exact ⟨chart, hchart, hlen, hlabels.trans rfl⟩

/-- C15, counterexample to the claim as stated. (1) In radar style the labels and the
data do not have the length of the results: for the Diabetes example, with one result,
there are four labels and the series holds four values. (2) With an empty `results`
array `processData` throws a `TypeError` in both styles, at
`results.results[0].metrics`. -/
theorem single_chart_total_claim_fails :
    (∃ chart, processData diabetesResponse .radar .f1_score = .ok (some chart) ∧
      diabetesResults.length = 1 ∧
      chart.labels.length = 4 ∧
      chart.datasets.map (fun s => s.data.length) = [4]) ∧
    (∀ (chartType : ChartType) (metric : MetricName),
      processData (.obj emptyResultsProps) chartType metric = .error .TypeError) := by
  constructor
  · exact ⟨_, processData_single_radar diabetesProps diabetesResult [] .f1_score rfl rfl,
      rfl, rfl, rfl⟩
  · intro chartType metric
    exact processData_empty_results emptyResultsProps rfl chartType metric

end MediCompare
